import Mathlib

/-!
# Obstacle-avoidance cost feature of the STOMP MoveIt interface

A shallow embedding of
`src/deprecated/stomp_moveit_interface/src/cost_features/obstacle_avoidance_feature.cpp`.

Conventions of the embedding:

* a C++ `double` is an exact rational (`ℚ`): rounding and overflow are abstracted away, and a
  literal stands for the number it denotes as written (`0.01f` is the `float` nearest to 0.01);
* the one place where the exact computation leaves the finite numbers is the factor
  `1 / (max_depth + clearance_)` of line 178 when the divisor is `0`: the entries of the
  returned matrix that are then infinite or NaN are recorded next to the matrix;
* an `int` is an `Int` and the sum `start_timestep + num_time_steps` does not overflow;
  container sizes are `Nat`;
* an out-parameter passed by reference is an argument of the function and a component of
  what it returns;
* an access outside the bounds of a vector or of a matrix is undefined in C++; here it
  makes the function return `Except.error Fault.indexOutOfRange`;
* the collision engine is not part of the file: it is a pair of functions carried by the
  planning scene, each of which receives the result object it writes into (the C++ calls
  take the result by reference and the result objects live across the steps of one call).
-/

namespace stomp_moveit_interface

/-! ## Constants (lines 12-15) -/

/-- The constant `NUM_FEATURE_VALUES` of line 12. -/
def NUM_FEATURE_VALUES : Nat := 1

/-- The constant `DEFAULT_CLEARANCE` of line 13, `const double DEFAULT_CLEARANCE = 0.01f`: the
`float` nearest to 0.01, which is `10737418 * 2^(-30)` (bit pattern `0x3C23D70A`), converted
to `double` without change; as a decimal it is 0.009999999776482582. -/
def DEFAULT_CLEARANCE : ℚ := 5368709 / 536870912

/-- The constant `DEFAULT_COLLISION_DETECTOR` of line 14. -/
def DEFAULT_COLLISION_DETECTOR : String := "IndustrialFCL"

/-- The constant `FEATURE_NAME` of line 15. -/
def FEATURE_NAME : String := "ObstacleAvoidance"

/-- The value of `std::numeric_limits<double>::max()`, namely `(2 - 2^(-52)) * 2^1023`. -/
def DBL_MAX : ℚ := 2 ^ 1024 - 2 ^ 971

/-! ## Data model -/

/-- What goes wrong when the C++ code would leave defined behaviour, and the one way the
loop model itself can stop early. -/
inductive Fault where
  | indexOutOfRange
  | fuelExhausted
  deriving DecidableEq, Repr

/-- A posed robot configuration: the joint positions of one time step. -/
structure RobotState where
  positions : List ℚ
  deriving DecidableEq, Inhabited

/-- The part of `collision_detection::Contact` the feature reads. -/
structure Contact where
  depth : ℚ
  deriving DecidableEq

/-- The type `CollisionResult::ContactMap`: the contact groups in the iteration order of the
`std::map`, each with the pair of body names that is its key and its vector of contacts. -/
abbrev ContactMap := List ((String × String) × List Contact)

/-- The part of `collision_detection::CollisionResult` the feature reads or writes. -/
structure CollisionResult where
  collision : Bool
  distance : ℚ
  contacts : ContactMap
  deriving DecidableEq

/-- A default-constructed `CollisionResult`: no collision, distance at the largest double, no
contact. -/
def CollisionResult.init : CollisionResult :=
  { collision := false, distance := DBL_MAX, contacts := [] }

/-- The fields of `collision_detection::CollisionRequest` that `loadParameters` sets. -/
structure CollisionRequest where
  group_name : String
  cost : Bool
  distance : Bool
  max_contacts : Nat
  max_contacts_per_pair : Nat
  contacts : Bool
  verbose : Bool
  deriving DecidableEq

/-- The allowed-collision matrix of the scene: the pairs of bodies whose contact is ignored. -/
abbrev AllowedCollisionMatrix := List (String × String)

/-- The robot side of the collision engine: `checkSelfCollision(request, result, state, acm)`
writes into `result`; the function returns the result object after the call. -/
structure CollisionRobotIndustrial where
  checkSelfCollision :
    CollisionRequest → CollisionResult → RobotState → AllowedCollisionMatrix → CollisionResult

/-- The world side of the collision engine:
`checkRobotCollision(request, result, robot, state, acm)` writes into `result`; the function
returns the result object after the call. -/
structure CollisionWorldIndustrial where
  checkRobotCollision :
    CollisionRequest → CollisionResult → CollisionRobotIndustrial → RobotState →
      AllowedCollisionMatrix → CollisionResult

/-- The planning scene as the feature uses it. -/
structure PlanningScene where
  activeCollisionDetectorName : String
  collisionRobot : CollisionRobotIndustrial
  collisionWorld : CollisionWorldIndustrial
  allowedCollisionMatrix : AllowedCollisionMatrix

/-- The members the feature inherits from the base class `StompCostFeature`. -/
structure StompCostFeature where
  num_threads_ : Int
  group_name_ : String
  planning_scene_ : PlanningScene

/-- The feature object: the base-class members and the members of the class itself. The
pointers to the scene and to the two halves of the engine are taken to be non-null. -/
structure ObstacleAvoidanceFeature extends StompCostFeature where
  clearance_ : ℚ
  collision_request_ : CollisionRequest
  collision_robot_ : CollisionRobotIndustrial
  collision_world_ : CollisionWorldIndustrial

/-- The members of `StompTrajectory` the feature reads. -/
structure StompTrajectory where
  num_time_steps_ : Nat
  group_name_ : String
  kinematic_states_ : List RobotState

/-- An `XmlRpc::XmlRpcValue` of struct type whose members are doubles. -/
structure XmlRpcValue where
  members : List (String × ℚ)

/-- The test `config.hasMember(name)`. -/
def XmlRpcValue.hasMember (config : XmlRpcValue) (name : String) : Bool :=
  (config.members.lookup name).isSome

/-- The value `static_cast<double>(config[name])`; a member that is absent is created
invalid by `operator[]` and reads as `0.0`. -/
def XmlRpcValue.asDouble (config : XmlRpcValue) (name : String) : ℚ :=
  (config.members.lookup name).getD 0

/-- An `Eigen::MatrixXd`: its dimensions and its coefficients. -/
structure MatrixXd where
  rows : Nat
  cols : Nat
  coeff : Nat → Nat → ℚ

/-- The matrix `Eigen::MatrixXd::Zero(rows, cols)`. -/
def MatrixXd.Zero (rows cols : Nat) : MatrixXd :=
  { rows := rows, cols := cols, coeff := fun _ _ => 0 }

/-- The statement `m(i, j) += x`. -/
def MatrixXd.addAt (m : MatrixXd) (i j : Int) (x : ℚ) : Except Fault MatrixXd :=
  if 0 ≤ i ∧ i.toNat < m.rows ∧ 0 ≤ j ∧ j.toNat < m.cols then
    .ok { m with coeff := fun a b =>
            if a = i.toNat ∧ b = j.toNat then m.coeff a b + x else m.coeff a b }
  else .error .indexOutOfRange

/-- The statement `m *= s`. -/
def MatrixXd.scale (m : MatrixXd) (s : ℚ) : MatrixXd :=
  { m with coeff := fun a b => m.coeff a b * s }

/-- The read `v[i]` of a `std::vector`. -/
def vectorGet {α : Type} (v : List α) (i : Int) : Except Fault α :=
  if 0 ≤ i then
    match v[i.toNat]? with
    | some x => .ok x
    | none => .error .indexOutOfRange
  else .error .indexOutOfRange

/-- The write `v[i] = x` of a `std::vector`. -/
def vectorSet {α : Type} (v : List α) (i : Int) (x : α) : Except Fault (List α) :=
  if 0 ≤ i ∧ i.toNat < v.length then .ok (v.set i.toNat x) else .error .indexOutOfRange

/-! ## Initialization (lines 31-94) -/

/-- The method `loadParameters` (lines 60-89): the returned flag and the feature afterwards. -/
def loadParameters (self : ObstacleAvoidanceFeature) (config : XmlRpcValue) :
    Bool × ObstacleAvoidanceFeature :=
  let self := { self with
    collision_request_ :=
      { group_name := self.group_name_
        cost := false
        distance := true
        max_contacts := 1
        max_contacts_per_pair := 1
        contacts := true
        verbose := false } }
  if config.hasMember "collision_clearance" then
    let self := { self with clearance_ := config.asDouble "collision_clearance" }
    let self :=
      if self.clearance_ = 0 then { self with clearance_ := DEFAULT_CLEARANCE } else self
    (true, self)
  else
    (false, self)

/-- The method `initialize` (lines 31-42). The base-class method `StompCostFeature::initialize`
is not in the file: it is the argument `baseInit`, which acts on the base-class members
and returns a flag. The right operand of `&&` runs only when the left one is true. -/
def initFeature
    (baseInit :
      StompCostFeature → XmlRpcValue → Int → String → PlanningScene → Bool × StompCostFeature)
    (self : ObstacleAvoidanceFeature) (config : XmlRpcValue) (num_threads : Int)
    (group_name : String) (planning_scene : PlanningScene) :
    Bool × ObstacleAvoidanceFeature :=
  let r := baseInit self.toStompCostFeature config num_threads group_name planning_scene
  let self := { self with toStompCostFeature := r.2 }
  if r.1 then loadParameters self config else (false, self)

/-- The method `setPlanningScene` (lines 44-58). The base-class method
`StompCostFeature::setPlanningScene` is not in the file: it is the argument
`baseSetPlanningScene`, which acts on the base-class members. A thrown `std::runtime_error`
is an `Except.error` carrying the message. -/
def setPlanningScene
    (baseSetPlanningScene : StompCostFeature → PlanningScene → StompCostFeature)
    (self : ObstacleAvoidanceFeature) (planning_scene : PlanningScene) :
    Except String ObstacleAvoidanceFeature :=
  let self :=
    { self with toStompCostFeature := baseSetPlanningScene self.toStompCostFeature planning_scene }
  if planning_scene.activeCollisionDetectorName ≠ DEFAULT_COLLISION_DETECTOR then
    .error ("STOMP Moveit Interface requires the use of collision detector \"" ++
      DEFAULT_COLLISION_DETECTOR ++ "\"\n" ++
      "To resolve the issue add the ros parameter collision_detector = " ++
      DEFAULT_COLLISION_DETECTOR ++
      ".\nIt is recommend to added it where the move_group node is launched, usually in the in the " ++
      "(robot_name)_moveit_config/launch/move_group.launch")
  else
    .ok { self with
      collision_robot_ := planning_scene.collisionRobot
      collision_world_ := planning_scene.collisionWorld }

/-- The method `getNumValues` (lines 91-94). -/
def getNumValues : Nat := NUM_FEATURE_VALUES

/-- The method `getName` (lines 181-184). -/
def getName : String := FEATURE_NAME

/-- The method `getNames` (lines 186-189). -/
def getNames (names : List String) : List String := names ++ [FEATURE_NAME]

/-! ## Evaluation (lines 96-179) -/

/-- The inner loop of lines 150-156 over one contact vector; the pair is `(depth, max_depth)`. -/
def scanContactArray (contacts : List Contact) (dm : ℚ × ℚ) : ℚ × ℚ :=
  contacts.foldl
    (fun acc contact =>
      let depth := |contact.depth|
      (depth, if depth > acc.2 then depth else acc.2))
    dm

/-- The loop of lines 147-157 over the contact map; the pair is `(depth, max_depth)`. -/
def scanContactMap (contacts : ContactMap) (dm : ℚ × ℚ) : ℚ × ℚ :=
  contacts.foldl (fun acc c => scanContactArray c.2 acc) dm

/-- The variables of `computeValuesAndGradients` that the handling of one result updates. -/
structure Accum where
  feature_values : MatrixXd
  validities : List Int
  max_depth : ℚ

/-- The body of the loop over `results` (lines 142-174) for one result at step `t`. -/
def evalResult (clearance_ : ℚ) (t : Int) (a : Accum) (result : CollisionResult) :
    Except Fault Accum :=
  if result.collision then
    let dm := scanContactMap result.contacts (0, a.max_depth)
    let potential := dm.1 + clearance_
    match vectorSet a.validities t 0 with
    | .error e => .error e
    | .ok validities =>
      match a.feature_values.addAt t 0 potential with
      | .error e => .error e
      | .ok feature_values =>
        .ok { feature_values := feature_values, validities := validities, max_depth := dm.2 }
  else
    let potential :=
      if result.distance > 0 then
        if result.distance < clearance_ then clearance_ - result.distance else 0
      else 0
    match a.feature_values.addAt t 0 potential with
    | .error e => .error e
    | .ok feature_values => .ok { a with feature_values := feature_values }

/-- The loop over `results` (lines 140-175). -/
def evalResults (clearance_ : ℚ) (t : Int) : Accum → List CollisionResult → Except Fault Accum
  | a, [] => .ok a
  | a, result :: rest =>
    match evalResult clearance_ t a result with
    | .error e => .error e
    | .ok a => evalResults clearance_ t a rest

/-- The variables of `computeValuesAndGradients` that live across the steps. -/
structure LoopState where
  feature_values : MatrixXd
  validities : List Int
  max_depth : ℚ
  result_world_collision : CollisionResult
  result_robot_collision : CollisionResult

/-- The world query of lines 125-131: the distance of the result object is set to the
largest double, then the engine is called on it. -/
def worldQuery (self : ObstacleAvoidanceFeature) (request : CollisionRequest)
    (result_world_collision : CollisionResult) (state0 : RobotState) : CollisionResult :=
  self.collision_world_.checkRobotCollision request
    { result_world_collision with distance := DBL_MAX }
    self.collision_robot_ state0 self.planning_scene_.allowedCollisionMatrix

/-- The self query of lines 133-136. -/
def selfQuery (self : ObstacleAvoidanceFeature) (request : CollisionRequest)
    (result_robot_collision : CollisionResult) (state0 : RobotState) : CollisionResult :=
  self.collision_robot_.checkSelfCollision request result_robot_collision state0
    self.planning_scene_.allowedCollisionMatrix

/-- The body of the step loop (lines 121-175) at step `t`. -/
def stepBody (self : ObstacleAvoidanceFeature) (trajectory : StompTrajectory)
    (request : CollisionRequest) (t : Int) (s : LoopState) : Except Fault LoopState :=
  match vectorGet trajectory.kinematic_states_ t with
  | .error e => .error e
  | .ok state0 =>
    let result_world_collision := worldQuery self request s.result_world_collision state0
    let result_robot_collision := selfQuery self request s.result_robot_collision state0
    match evalResults self.clearance_ t
        { feature_values := s.feature_values, validities := s.validities,
          max_depth := s.max_depth }
        [result_world_collision, result_robot_collision] with
    | .error e => .error e
    | .ok a =>
      .ok { feature_values := a.feature_values, validities := a.validities,
            max_depth := a.max_depth,
            result_world_collision := result_world_collision,
            result_robot_collision := result_robot_collision }

/-- The step loop `for (t = ...; t < bound; ++t)` of lines 119-176, entered at `t` with at
most `fuel` iterations left; it stops when the loop condition fails. -/
def stepLoop (self : ObstacleAvoidanceFeature) (trajectory : StompTrajectory)
    (request : CollisionRequest) (bound : Int) : Nat → Int → LoopState → Except Fault LoopState
  | 0, t, s => if t < bound then .error .fuelExhausted else .ok s
  | fuel + 1, t, s =>
    if t < bound then
      match stepBody self trajectory request t s with
      | .error e => .error e
      | .ok s => stepLoop self trajectory request bound fuel (t + 1) s
    else .ok s

/-- The request of lines 113-114. -/
def makeRequest (self : ObstacleAvoidanceFeature) (trajectory : StompTrajectory) :
    CollisionRequest :=
  { self.collision_request_ with group_name := trajectory.group_name_ }

/-- Lines 110-176 of `computeValuesAndGradients`: the output buffers are overwritten, the
locals are initialised and the step loop runs; the state is the one reached just before the
normalization of line 178. -/
def runSteps (self : ObstacleAvoidanceFeature) (trajectory : StompTrajectory)
    (start_timestep num_time_steps : Int) : Except Fault LoopState :=
  stepLoop self trajectory (makeRequest self trajectory) (start_timestep + num_time_steps)
    num_time_steps.toNat start_timestep
    { feature_values := MatrixXd.Zero trajectory.num_time_steps_ getNumValues
      validities := List.replicate trajectory.num_time_steps_ 1
      max_depth := 0
      result_world_collision := CollisionResult.init
      result_robot_collision := CollisionResult.init }

/-- A value of a `double` that is not a finite number. -/
inductive NonFinite where
  | posInf
  | negInf
  | nan
  deriving DecidableEq, Repr

/-- What the assignment `x *= (1 / d)` of line 178 leaves in an entry `x` when that is not a
finite number, `none` when it is the finite number `x * (1 / d)`. The divisor
`d = max_depth + clearance_` has a `max_depth` that is not negative, so when it is zero it is
`+0.0` and the factor `1 / d` is `+inf`: the entry becomes NaN when `x` is zero, `+inf` when
`x` is positive and `-inf` when `x` is negative. -/
def scaledNonFinite (x d : ℚ) : Option NonFinite :=
  if d = 0 then
    if x = 0 then some .nan else if 0 < x then some .posInf else some .negInf
  else none

/-- What `computeValuesAndGradients` leaves in its three out-parameters. An entry `(i, j)` of
the feature matrix for which `non_finite i j` is `some v` holds `v`, which is not a number of
`ℚ`; every other entry is the rational `feature_values.coeff i j`. -/
structure Outputs where
  feature_values : MatrixXd
  non_finite : Nat → Nat → Option NonFinite
  gradients : List MatrixXd
  validities : List Int

/-- Entry `(i, j)` of the returned feature matrix is the finite number `x`. -/
def Outputs.hasValue (out : Outputs) (i j : Nat) (x : ℚ) : Prop :=
  out.non_finite i j = none ∧ out.feature_values.coeff i j = x

/-- The method `computeValuesAndGradients` (lines 96-179). The buffers `feature_values`,
`gradients` and `validities` come in with whatever the caller left in them. -/
def computeValuesAndGradients (self : ObstacleAvoidanceFeature) (trajectory : StompTrajectory)
    (_feature_values : MatrixXd) (_compute_gradients : Bool) (gradients : List MatrixXd)
    (_validities : List Int) (_thread_id : Int) (start_timestep num_time_steps : Int) :
    Except Fault Outputs :=
  match runSteps self trajectory start_timestep num_time_steps with
  | .error e => .error e
  | .ok s =>
    .ok { feature_values := s.feature_values.scale (1 / (s.max_depth + self.clearance_))
          non_finite := fun i j =>
            scaledNonFinite (s.feature_values.coeff i j) (s.max_depth + self.clearance_)
          gradients := gradients
          validities := s.validities }


/-! ## Vocabulary of the properties -/

/-- All the contacts of a contact map, in the order in which the scan visits them. -/
def allContacts (contacts : ContactMap) : List Contact :=
  contacts.flatMap (fun c => c.2)

/-- The absolute depth of the last contact of a contact map in scan order, `0` when the map
holds no contact. -/
def lastDepth (contacts : ContactMap) : ℚ :=
  match (allContacts contacts).getLast? with
  | none => 0
  | some contact => |contact.depth|

/-- The absolute depths that the scan of a result visits: those of all its contacts when the
result signals a collision, none otherwise. -/
def scannedDepths (result : CollisionResult) : List ℚ :=
  if result.collision then (allContacts result.contacts).map (fun c => |c.depth|) else []

/-- The largest of `m` and the members of `depths`. -/
def runningMax (m : ℚ) (depths : List ℚ) : ℚ :=
  depths.foldl max m

/-- The potential of one result as the specification words it: `|depth| + clearance` of the
last contact scanned for a colliding result, `clearance - distance` for a collision-free
result with `0 < distance < clearance`, and `0` otherwise. -/
def potentialOf (clearance : ℚ) (result : CollisionResult) : ℚ :=
  if result.collision then lastDepth result.contacts + clearance
  else if 0 < result.distance ∧ result.distance < clearance then clearance - result.distance
  else 0

/-- The robot state that step `t` of the loop reads. -/
def stateAt (trajectory : StompTrajectory) (t : Int) : RobotState :=
  (trajectory.kinematic_states_[t.toNat]?).getD default

/-- The two result objects, world first, as the queries of the first `k` steps of a call that
starts at `start_timestep` leave them. -/
def resultsAfter (self : ObstacleAvoidanceFeature) (trajectory : StompTrajectory)
    (start_timestep : Int) : Nat → CollisionResult × CollisionResult
  | 0 => (CollisionResult.init, CollisionResult.init)
  | k + 1 =>
    (worldQuery self (makeRequest self trajectory)
        (resultsAfter self trajectory start_timestep k).1
        (stateAt trajectory (start_timestep + k)),
     selfQuery self (makeRequest self trajectory)
        (resultsAfter self trajectory start_timestep k).2
        (stateAt trajectory (start_timestep + k)))

/-- The robot-vs-world result that the code evaluates at step `t` of a call that starts at
`start_timestep`. -/
def worldResultAt (self : ObstacleAvoidanceFeature) (trajectory : StompTrajectory)
    (start_timestep t : Int) : CollisionResult :=
  (resultsAfter self trajectory start_timestep ((t - start_timestep).toNat + 1)).1

/-- The self-collision result that the code evaluates at step `t` of a call that starts at
`start_timestep`. -/
def selfResultAt (self : ObstacleAvoidanceFeature) (trajectory : StompTrajectory)
    (start_timestep t : Int) : CollisionResult :=
  (resultsAfter self trajectory start_timestep ((t - start_timestep).toNat + 1)).2

/-- The absolute depths that the scans of the first `k` steps visit, in order. -/
def depthsScanned (self : ObstacleAvoidanceFeature) (trajectory : StompTrajectory)
    (start_timestep : Int) : Nat → List ℚ
  | 0 => []
  | k + 1 =>
    depthsScanned self trajectory start_timestep k ++
      (scannedDepths (resultsAfter self trajectory start_timestep (k + 1)).1 ++
        scannedDepths (resultsAfter self trajectory start_timestep (k + 1)).2)

/-- The state of the step loop after `k` steps of a call that starts at `start_timestep`. -/
structure LoopInv (feature : ObstacleAvoidanceFeature) (trajectory : StompTrajectory)
    (start_timestep : Int) (k : Nat) (s : LoopState) : Prop where
  rows : s.feature_values.rows = trajectory.num_time_steps_
  cols : s.feature_values.cols = getNumValues
  len : s.validities.length = trajectory.num_time_steps_
  world : s.result_world_collision = (resultsAfter feature trajectory start_timestep k).1
  robot : s.result_robot_collision = (resultsAfter feature trajectory start_timestep k).2
  depth : s.max_depth = runningMax 0 (depthsScanned feature trajectory start_timestep k)
  coeff : ∀ i j, s.feature_values.coeff i j =
    if start_timestep.toNat ≤ i ∧ i < start_timestep.toNat + k ∧ j = 0 then
      potentialOf feature.clearance_
          (resultsAfter feature trajectory start_timestep (i - start_timestep.toNat + 1)).1 +
        potentialOf feature.clearance_
          (resultsAfter feature trajectory start_timestep (i - start_timestep.toNat + 1)).2
    else 0
  valid : ∀ i, i < trajectory.num_time_steps_ → s.validities[i]? = some
    (if start_timestep.toNat ≤ i ∧ i < start_timestep.toNat + k ∧
        ((resultsAfter feature trajectory start_timestep
            (i - start_timestep.toNat + 1)).1.collision = true ∨
          (resultsAfter feature trajectory start_timestep
            (i - start_timestep.toNat + 1)).2.collision = true)
      then 0 else 1)

/-! ## Concrete scenes -/

/-- A robot whose self check reports no collision and writes the distance `d`. -/
def robotAtDistance (d : ℚ) : CollisionRobotIndustrial :=
  { checkSelfCollision := fun _ result _ _ => { result with distance := d } }

/-- A robot whose self check reports a collision with one contact of depth `depth`. -/
def robotInCollision (depth : ℚ) : CollisionRobotIndustrial :=
  { checkSelfCollision := fun _ result _ _ =>
      { result with collision := true, contacts := [(("link_2", "link_5"), [⟨depth⟩])] } }

/-- A world whose robot check reports no collision and writes the distance `d`. -/
def worldAtDistance (d : ℚ) : CollisionWorldIndustrial :=
  { checkRobotCollision := fun _ result _ _ _ => { result with distance := d } }

/-- A world whose robot check reports a collision with one contact of depth `depth`. -/
def worldInCollision (depth : ℚ) : CollisionWorldIndustrial :=
  { checkRobotCollision := fun _ result _ _ _ =>
      { result with collision := true, contacts := [(("link_6", "box"), [⟨depth⟩])] } }

/-- A feature bound to a scene made of the given robot and world, with the given clearance. -/
def featureOn (clearance : ℚ) (robot : CollisionRobotIndustrial)
    (world : CollisionWorldIndustrial) : ObstacleAvoidanceFeature :=
  { num_threads_ := 1
    group_name_ := "manipulator"
    planning_scene_ :=
      { activeCollisionDetectorName := DEFAULT_COLLISION_DETECTOR
        collisionRobot := robot
        collisionWorld := world
        allowedCollisionMatrix := [] }
    clearance_ := clearance
    collision_request_ :=
      { group_name := "manipulator", cost := false, distance := true, max_contacts := 1,
        max_contacts_per_pair := 1, contacts := true, verbose := false }
    collision_robot_ := robot
    collision_world_ := world }

/-- A trajectory of one time step. -/
def oneStepTrajectory : StompTrajectory :=
  { num_time_steps_ := 1, group_name_ := "manipulator", kinematic_states_ := [⟨[0, 0, 0]⟩] }

/-- A trajectory of three time steps. -/
def threeStepTrajectory : StompTrajectory :=
  { num_time_steps_ := 3, group_name_ := "manipulator"
    kinematic_states_ := [⟨[0, 0, 0]⟩, ⟨[1, 0, 0]⟩, ⟨[2, 0, 0]⟩] }

/-- The scenario of a world collision: clearance 0.01, a world contact of depth 0.02, no self
collision at distance 0.2. -/
def collisionScenario : ObstacleAvoidanceFeature :=
  featureOn (1 / 100) (robotAtDistance (1 / 5)) (worldInCollision (1 / 50))

/-- The scenario of a near miss: clearance 0.01, world distance 0.005, no self proximity
(self distance 0.2). -/
def nearMissScenario : ObstacleAvoidanceFeature :=
  featureOn (1 / 100) (robotAtDistance (1 / 5)) (worldAtDistance (1 / 200))

/-- The scenario of a double collision: clearance 0.01, a world contact of depth 0.02 and a
self contact of depth 0.01. -/
def doubleCollisionScenario : ObstacleAvoidanceFeature :=
  featureOn (1 / 100) (robotInCollision (1 / 100)) (worldInCollision (1 / 50))

/-- The scenario of a collision with the self check inside the clearance: clearance 0.01, a
world contact of depth 0.02, no self collision at distance 0.005. -/
def grazingCollisionScenario : ObstacleAvoidanceFeature :=
  featureOn (1 / 100) (robotAtDistance (1 / 200)) (worldInCollision (1 / 50))

/-- The value of `max_depth` that the normalization of line 178 uses (`0` if the step loop
does not complete). -/
def maxDepthOf (self : ObstacleAvoidanceFeature) (trajectory : StompTrajectory)
    (start_timestep num_time_steps : Int) : ℚ :=
  match runSteps self trajectory start_timestep num_time_steps with
  | .ok s => s.max_depth
  | .error _ => 0

/-- A configuration whose only member is `collision_clearance`, with the value `v`. -/
def configWithClearance (v : ℚ) : XmlRpcValue :=
  { members := [("collision_clearance", v)] }

/-- A configuration without the member `collision_clearance`. -/
def configWithoutClearance : XmlRpcValue :=
  { members := [("max_velocity", 2)] }

/-- A base-class initialization that stores its arguments and succeeds. -/
def baseInitStoring (base : StompCostFeature) (_config : XmlRpcValue) (num_threads : Int)
    (group_name : String) (planning_scene : PlanningScene) : Bool × StompCostFeature :=
  (true, { base with num_threads_ := num_threads, group_name_ := group_name,
                     planning_scene_ := planning_scene })

/-- The accumulated variables at the entry of a one-step call: a zero `1 x 1` matrix, one
flag set to `1`, `max_depth` at `0`. -/
def freshAccum : Accum :=
  { feature_values := MatrixXd.Zero 1 1, validities := [1], max_depth := 0 }

/-- A collision-free result at distance 0.005. -/
def nearResult : CollisionResult :=
  { collision := false, distance := 1 / 200, contacts := [] }

/-- A colliding result with two contact groups and three contacts, of depths -0.03, 0.05 and
-0.02 in scan order. -/
def hitResult : CollisionResult :=
  { collision := true, distance := 0
    contacts := [(("link_3", "box"), [⟨-3 / 100⟩, ⟨1 / 20⟩]), (("link_6", "box"), [⟨-1 / 50⟩])] }

/-- A planning scene whose active collision detector has the given name. -/
def sceneNamed (name : String) : PlanningScene :=
  { activeCollisionDetectorName := name
    collisionRobot := robotAtDistance (1 / 5)
    collisionWorld := worldAtDistance (1 / 2)
    allowedCollisionMatrix := [] }

/-- A base-class `setPlanningScene` that stores the scene. -/
def baseStoreScene (base : StompCostFeature) (planning_scene : PlanningScene) :
    StompCostFeature :=
  { base with planning_scene_ := planning_scene }

/-- The result object as the world query of step `t` receives it, in a call that starts at
`start_timestep`: what the earlier steps of the call left, with the distance overwritten by
the largest double. -/
def handedWorldResult (self : ObstacleAvoidanceFeature) (trajectory : StompTrajectory)
    (start_timestep t : Int) : CollisionResult :=
  { (resultsAfter self trajectory start_timestep (t - start_timestep).toNat).1 with
    distance := DBL_MAX }

/-- A world whose robot check finds nothing and writes nothing into the result. -/
def worldSilent : CollisionWorldIndustrial :=
  { checkRobotCollision := fun _ result _ _ _ => result }

/-- The scenario of a silent world: clearance 0.01, a world check that leaves the result
untouched, no self collision at distance 0.2. -/
def silentWorldScenario : ObstacleAvoidanceFeature :=
  featureOn (1 / 100) (robotAtDistance (1 / 5)) worldSilent

/-- The variables of `computeValuesAndGradients` at the entry of the step loop (lines
110-118). -/
def loopEntryState (trajectory : StompTrajectory) : LoopState :=
  { feature_values := MatrixXd.Zero trajectory.num_time_steps_ getNumValues
    validities := List.replicate trajectory.num_time_steps_ 1
    max_depth := 0
    result_world_collision := CollisionResult.init
    result_robot_collision := CollisionResult.init }

/-- A world whose robot check never clears the result object it is handed: in the first
configuration of `threeStepTrajectory` it sets the collision flag and stores one contact of
depth 0.02; in any other configuration it finds nothing and writes only the distance 0.5. -/
def worldSticky : CollisionWorldIndustrial :=
  { checkRobotCollision := fun _ result _ state _ =>
      if state.positions = [0, 0, 0] then
        { result with collision := true, contacts := [(("link_6", "box"), [⟨1 / 50⟩])] }
      else { result with distance := 1 / 2 } }

/-- The scenario of a world check that never clears its result: clearance 0.01, no self
collision at distance 0.2. -/
def stickyWorldScenario : ObstacleAvoidanceFeature :=
  featureOn (1 / 100) (robotAtDistance (1 / 5)) worldSticky

/-- The scenario of a negative clearance: clearance -0.5, a world contact of depth 0.5, no
self collision at distance 0.2. -/
def negativeClearanceScenario : ObstacleAvoidanceFeature :=
  featureOn (-1 / 2) (robotAtDistance (1 / 5)) (worldInCollision (1 / 2))

/-! ## Lemmas on the scan, on one result and on one step -/

theorem scanContactArray_eq (contacts : List Contact) (d m : ℚ) :
    scanContactArray contacts (d, m) =
      ((match contacts.getLast? with
        | none => d
        | some contact => |contact.depth|),
       runningMax m (contacts.map (fun c => |c.depth|))) := by
  induction contacts using List.reverseRecOn with
  | nil => simp [scanContactArray, runningMax]
  | append_singleton l a ih =>
    unfold scanContactArray at ih ⊢
    rw [List.foldl_append, ih]
    simp only [List.foldl_cons, List.foldl_nil, List.getLast?_append, List.getLast?_singleton,
      List.map_append, List.map_cons, List.map_nil, runningMax, List.foldl_append]
    refine Prod.ext ?_ ?_
    · simp
    · simp only [gt_iff_lt]
      split_ifs with h
      · exact (max_eq_right h.le).symm
      · exact (max_eq_left (not_lt.mp h)).symm

theorem scanContactMap_eq (contacts : ContactMap) (dm : ℚ × ℚ) :
    scanContactMap contacts dm = scanContactArray (allContacts contacts) dm := by
  induction contacts generalizing dm with
  | nil => simp [scanContactMap, allContacts, scanContactArray]
  | cons c rest ih =>
    have h := ih (scanContactArray c.2 dm)
    simp only [scanContactMap, allContacts, List.foldl_cons, List.flatMap_cons,
      scanContactArray, List.foldl_append] at h ⊢
    exact h

theorem scanContactMap_fst (contacts : ContactMap) (d m : ℚ) :
    (scanContactMap contacts (d, m)).1 =
      match (allContacts contacts).getLast? with
      | none => d
      | some contact => |contact.depth| := by
  rw [scanContactMap_eq, scanContactArray_eq]

theorem scanContactMap_snd (contacts : ContactMap) (d m : ℚ) :
    (scanContactMap contacts (d, m)).2 =
      runningMax m ((allContacts contacts).map (fun c => |c.depth|)) := by
  rw [scanContactMap_eq, scanContactArray_eq]

theorem evalResult_ok (clearance : ℚ) (t : Int) (a : Accum) (result : CollisionResult)
    (ht : 0 ≤ t) (hr : t.toNat < a.feature_values.rows) (hc : 0 < a.feature_values.cols)
    (hv : t.toNat < a.validities.length) :
    evalResult clearance t a result = .ok
      { feature_values :=
          { a.feature_values with coeff := fun i j =>
              if i = t.toNat ∧ j = 0 then a.feature_values.coeff i j + potentialOf clearance result
              else a.feature_values.coeff i j }
        validities := if result.collision then a.validities.set t.toNat 0 else a.validities
        max_depth := runningMax a.max_depth (scannedDepths result) } := by
  unfold evalResult
  by_cases hcol : result.collision = true
  · simp [hcol, vectorSet, MatrixXd.addAt, ht, hr, hc, hv, potentialOf, scannedDepths,
      scanContactMap_fst, scanContactMap_snd, lastDepth]
  · have hp : (if result.distance > 0 then
          if result.distance < clearance then clearance - result.distance else 0
        else 0) = potentialOf clearance result := by
      simp only [potentialOf, hcol, gt_iff_lt]
      split_ifs <;> simp_all
    simp only [hp]
    simp [hcol, MatrixXd.addAt, ht, hr, hc, scannedDepths, runningMax]

theorem stepBody_ok (self : ObstacleAvoidanceFeature) (trajectory : StompTrajectory)
    (request : CollisionRequest) (t : Int) (s : LoopState) (state0 : RobotState)
    (ht : 0 ≤ t) (hs : trajectory.kinematic_states_[t.toNat]? = some state0)
    (hr : t.toNat < s.feature_values.rows) (hc : 0 < s.feature_values.cols)
    (hv : t.toNat < s.validities.length) :
    stepBody self trajectory request t s = .ok
      { feature_values :=
          { s.feature_values with coeff := fun i j =>
              if i = t.toNat ∧ j = 0 then
                s.feature_values.coeff i j +
                  (potentialOf self.clearance_
                    (worldQuery self request s.result_world_collision state0)) +
                  (potentialOf self.clearance_
                    (selfQuery self request s.result_robot_collision state0))
              else s.feature_values.coeff i j }
        validities :=
          if (worldQuery self request s.result_world_collision state0).collision = true ∨
              (selfQuery self request s.result_robot_collision state0).collision = true
          then s.validities.set t.toNat 0 else s.validities
        max_depth :=
          runningMax s.max_depth
            (scannedDepths (worldQuery self request s.result_world_collision state0) ++
              scannedDepths (selfQuery self request s.result_robot_collision state0))
        result_world_collision := worldQuery self request s.result_world_collision state0
        result_robot_collision := selfQuery self request s.result_robot_collision state0 } := by
  unfold stepBody
  simp only [vectorGet, ht, hs, if_true, evalResults]
  rw [evalResult_ok _ _ _ _ ht hr hc hv]
  simp only
  rw [evalResult_ok _ _ _ _ ht (by simpa using hr) (by simpa using hc)
    (by split_ifs <;> simpa using hv)]
  simp only [runningMax, List.foldl_append, Except.ok.injEq, LoopState.mk.injEq,
    MatrixXd.mk.injEq, true_and, and_true]
  refine ⟨?_, ?_⟩
  · funext i j
    split_ifs <;> rfl
  · by_cases h1 : (worldQuery self request s.result_world_collision state0).collision = true <;>
    by_cases h2 : (selfQuery self request s.result_robot_collision state0).collision = true <;>
    simp [h1, h2]

/-! ## Lemmas on the running maximum -/

theorem le_runningMax (m : ℚ) (depths : List ℚ) : m ≤ runningMax m depths := by
  induction depths generalizing m with
  | nil => simp [runningMax]
  | cons x rest ih =>
    have h := ih (max m x)
    simp only [runningMax, List.foldl_cons] at h ⊢
    exact le_trans (le_max_left m x) h

theorem mem_le_runningMax (m : ℚ) (depths : List ℚ) (x : ℚ) (hx : x ∈ depths) :
    x ≤ runningMax m depths := by
  induction depths generalizing m with
  | nil => simp at hx
  | cons y rest ih =>
    rcases List.mem_cons.mp hx with h | h
    · subst h
      have h1 := le_runningMax (max m x) rest
      simp only [runningMax, List.foldl_cons] at h1 ⊢
      exact le_trans (le_max_right m x) h1
    · have h1 := ih (max m y) h
      simp only [runningMax, List.foldl_cons] at h1 ⊢
      exact h1

theorem runningMax_eq_or_mem (m : ℚ) (depths : List ℚ) :
    runningMax m depths = m ∨ runningMax m depths ∈ depths := by
  induction depths generalizing m with
  | nil => left; simp [runningMax]
  | cons y rest ih =>
    have h := ih (max m y)
    simp only [runningMax, List.foldl_cons] at h ⊢
    rcases h with h | h
    · rcases max_choice m y with hm | hm
      · left; rw [h, hm]
      · right; rw [h, hm]; exact List.mem_cons_self _ _
    · right; exact List.mem_cons_of_mem _ h

theorem mem_scannedDepths (result : CollisionResult) (x : ℚ) :
    x ∈ scannedDepths result ↔
      result.collision = true ∧ ∃ c ∈ allContacts result.contacts, x = |c.depth| := by
  unfold scannedDepths
  by_cases h : result.collision = true
  · simp only [h, if_true, List.mem_map, true_and]
    constructor
    · rintro ⟨c, hc, rfl⟩
      exact ⟨c, hc, rfl⟩
    · rintro ⟨c, hc, rfl⟩
      exact ⟨c, hc, rfl⟩
  · simp [h]

theorem mem_depthsScanned (self : ObstacleAvoidanceFeature) (trajectory : StompTrajectory)
    (start_timestep : Int) (k : Nat) (x : ℚ) :
    x ∈ depthsScanned self trajectory start_timestep k ↔
      ∃ j, j < k ∧
        (x ∈ scannedDepths (resultsAfter self trajectory start_timestep (j + 1)).1 ∨
          x ∈ scannedDepths (resultsAfter self trajectory start_timestep (j + 1)).2) := by
  induction k with
  | zero => simp [depthsScanned]
  | succ k ih =>
    simp only [depthsScanned, List.mem_append, ih]
    constructor
    · rintro (⟨j, hj, h⟩ | h)
      · exact ⟨j, by omega, h⟩
      · exact ⟨k, by omega, h⟩
    · rintro ⟨j, hj, h⟩
      by_cases hjk : j = k
      · subst hjk
        exact Or.inr h
      · exact Or.inl ⟨j, by omega, h⟩

/-! ## The loop invariant -/

theorem loopInv_init (self : ObstacleAvoidanceFeature) (trajectory : StompTrajectory)
    (start_timestep : Int) :
    LoopInv self trajectory start_timestep 0
      { feature_values := MatrixXd.Zero trajectory.num_time_steps_ getNumValues
        validities := List.replicate trajectory.num_time_steps_ 1
        max_depth := 0
        result_world_collision := CollisionResult.init
        result_robot_collision := CollisionResult.init } := by
  refine ⟨rfl, rfl, by simp, rfl, rfl, rfl, ?_, ?_⟩
  · intro i j
    have : ¬ (start_timestep.toNat ≤ i ∧ i < start_timestep.toNat + 0 ∧ j = 0) := by omega
    rw [if_neg this]
    rfl
  · intro i hi
    have : ¬ (start_timestep.toNat ≤ i ∧ i < start_timestep.toNat + 0 ∧
        ((resultsAfter self trajectory start_timestep
            (i - start_timestep.toNat + 1)).1.collision = true ∨
          (resultsAfter self trajectory start_timestep
            (i - start_timestep.toNat + 1)).2.collision = true)) := by omega
    rw [if_neg this]
    simp [List.getElem?_replicate, hi]

theorem loopInv_step (self : ObstacleAvoidanceFeature) (trajectory : StompTrajectory)
    (start_timestep : Int) (k : Nat) (s : LoopState)
    (hinv : LoopInv self trajectory start_timestep k s)
    (h0 : 0 ≤ start_timestep) (h1 : start_timestep + k < trajectory.num_time_steps_)
    (h2 : trajectory.num_time_steps_ ≤ trajectory.kinematic_states_.length) :
    ∃ s', stepBody self trajectory (makeRequest self trajectory) (start_timestep + k) s = .ok s' ∧
      LoopInv self trajectory start_timestep (k + 1) s' := by
  have ht : (0 : Int) ≤ start_timestep + k := by omega
  have htn : (start_timestep + k).toNat = start_timestep.toNat + k := by omega
  have hlt : start_timestep.toNat + k < trajectory.num_time_steps_ := by omega
  have hs : trajectory.kinematic_states_[(start_timestep + k).toNat]? =
      some (stateAt trajectory (start_timestep + k)) := by
    have hl : (start_timestep + k).toNat < trajectory.kinematic_states_.length := by omega
    simp [stateAt, List.getElem?_eq_getElem hl]
  refine ⟨_, stepBody_ok self trajectory _ _ s _ ht hs (by rw [hinv.rows]; omega)
    (by rw [hinv.cols]; decide) (by rw [hinv.len]; omega), ?_⟩
  have hw : worldQuery self (makeRequest self trajectory) s.result_world_collision
      (stateAt trajectory (start_timestep + k)) =
      (resultsAfter self trajectory start_timestep (k + 1)).1 := by
    rw [hinv.world]; rfl
  have hr : selfQuery self (makeRequest self trajectory) s.result_robot_collision
      (stateAt trajectory (start_timestep + k)) =
      (resultsAfter self trajectory start_timestep (k + 1)).2 := by
    rw [hinv.robot]; rfl
  rw [hw, hr, htn]
  refine ⟨hinv.rows, hinv.cols, ?_, rfl, rfl, ?_, ?_, ?_⟩
  · show (if _ then _ else _ : List Int).length = _
    split_ifs <;> simp [hinv.len]
  · show runningMax s.max_depth _ = _
    rw [hinv.depth]
    simp [runningMax, depthsScanned, List.foldl_append]
  · intro i j
    show (if _ then _ else _ : ℚ) = _
    rw [hinv.coeff i j]
    by_cases hij : i = start_timestep.toNat + k ∧ j = 0
    · obtain ⟨hi, hj⟩ := hij
      subst hi hj
      have e : start_timestep.toNat + k - start_timestep.toNat + 1 = k + 1 := by omega
      simp [e]
    · rw [if_neg hij]
      by_cases hin : start_timestep.toNat ≤ i ∧ i < start_timestep.toNat + k ∧ j = 0
      · have hin' : start_timestep.toNat ≤ i ∧ i < start_timestep.toNat + (k + 1) ∧ j = 0 :=
          ⟨hin.1, by omega, hin.2.2⟩
        rw [if_pos hin, if_pos hin']
      · have hin' : ¬ (start_timestep.toNat ≤ i ∧ i < start_timestep.toNat + (k + 1) ∧ j = 0) := by
          intro h
          rcases h with ⟨ha, hb, hc⟩
          by_cases hik : i = start_timestep.toNat + k
          · exact hij ⟨hik, hc⟩
          · exact hin ⟨ha, by omega, hc⟩
        rw [if_neg hin, if_neg hin']
  · intro i hi
    show (if _ then _ else _ : List Int)[i]? = _
    have hold := hinv.valid i hi
    by_cases hik : i = start_timestep.toNat + k
    · subst hik
      have e : start_timestep.toNat + k - start_timestep.toNat + 1 = k + 1 := by omega
      have hl : start_timestep.toNat + k < s.validities.length := by rw [hinv.len]; exact hi
      rw [e]
      by_cases hc : (resultsAfter self trajectory start_timestep (k + 1)).1.collision = true ∨
          (resultsAfter self trajectory start_timestep (k + 1)).2.collision = true
      · rw [if_pos hc, List.getElem?_set_self hl]
        simp [hc]
      · rw [if_neg hc, hold]
        simp [hc]
    · have hset : (if (resultsAfter self trajectory start_timestep (k + 1)).1.collision = true ∨
            (resultsAfter self trajectory start_timestep (k + 1)).2.collision = true
          then s.validities.set (start_timestep.toNat + k) 0 else s.validities)[i]? =
          s.validities[i]? := by
        split_ifs
        · exact List.getElem?_set_ne (Ne.symm hik)
        · rfl
      rw [hset, hold]
      have hiff : (i < start_timestep.toNat + (k + 1)) ↔ (i < start_timestep.toNat + k) := by
        omega
      simp only [hiff]

theorem stepLoop_inv (self : ObstacleAvoidanceFeature) (trajectory : StompTrajectory)
    (start_timestep num_time_steps : Int)
    (h0 : 0 ≤ start_timestep)
    (h1 : start_timestep + num_time_steps ≤ trajectory.num_time_steps_)
    (h2 : trajectory.num_time_steps_ ≤ trajectory.kinematic_states_.length) :
    ∀ (fuel k : Nat) (s : LoopState), LoopInv self trajectory start_timestep k s →
      k + fuel = num_time_steps.toNat →
      ∃ s', stepLoop self trajectory (makeRequest self trajectory)
          (start_timestep + num_time_steps) fuel (start_timestep + k) s = .ok s' ∧
        LoopInv self trajectory start_timestep num_time_steps.toNat s' := by
  intro fuel
  induction fuel with
  | zero =>
    intro k s hinv hk
    have hnot : ¬ (start_timestep + (k : Int) < start_timestep + num_time_steps) := by omega
    refine ⟨s, ?_, ?_⟩
    · simp only [stepLoop, if_neg hnot]
    · have : k = num_time_steps.toNat := by omega
      rw [← this]
      exact hinv
  | succ fuel ih =>
    intro k s hinv hk
    have hlt : start_timestep + (k : Int) < start_timestep + num_time_steps := by omega
    obtain ⟨s1, hbody, hinv1⟩ :=
      loopInv_step self trajectory start_timestep k s hinv h0 (by omega) h2
    obtain ⟨s2, hloop, hinv2⟩ := ih (k + 1) s1 hinv1 (by omega)
    refine ⟨s2, ?_, hinv2⟩
    have hcast : start_timestep + ((k + 1 : Nat) : Int) = start_timestep + (k : Int) + 1 := by
      push_cast
      ring
    rw [hcast] at hloop
    simp only [stepLoop, if_pos hlt, hbody]
    exact hloop

theorem runSteps_ok (self : ObstacleAvoidanceFeature) (trajectory : StompTrajectory)
    (start_timestep num_time_steps : Int)
    (h0 : 0 ≤ start_timestep)
    (h1 : start_timestep + num_time_steps ≤ trajectory.num_time_steps_)
    (h2 : trajectory.num_time_steps_ ≤ trajectory.kinematic_states_.length) :
    ∃ s, runSteps self trajectory start_timestep num_time_steps = .ok s ∧
      LoopInv self trajectory start_timestep num_time_steps.toNat s := by
  have h := stepLoop_inv self trajectory start_timestep num_time_steps h0 h1 h2
    num_time_steps.toNat 0 _ (loopInv_init self trajectory start_timestep) (by omega)
  simpa [runSteps] using h

theorem computeValuesAndGradients_ok (self : ObstacleAvoidanceFeature)
    (trajectory : StompTrajectory) (feature_values : MatrixXd) (compute_gradients : Bool)
    (gradients : List MatrixXd) (validities : List Int)
    (thread_id start_timestep num_time_steps : Int) (s : LoopState)
    (hs : runSteps self trajectory start_timestep num_time_steps = .ok s) :
    computeValuesAndGradients self trajectory feature_values compute_gradients gradients
        validities thread_id start_timestep num_time_steps =
      .ok { feature_values := s.feature_values.scale (1 / (s.max_depth + self.clearance_))
            non_finite := fun i j =>
              scaledNonFinite (s.feature_values.coeff i j) (s.max_depth + self.clearance_)
            gradients := gradients
            validities := s.validities } := by
  simp only [computeValuesAndGradients, hs]

/-! ## Properties of `computeValuesAndGradients` -/

/-- C1 (normalization law): for a requested range that lies inside the trajectory, the call
returns, and for every step `t` of the range the returned feature value at `(t, 0)` is the
value accumulated for that step before normalization, which is the sum of the world-check
potential and of the self-check potential of step `t`, divided by `MaxDepth + clearance`,
where `MaxDepth` is the value of `max_depth` tracked over the whole range. -/
theorem normalization_law (self : ObstacleAvoidanceFeature) (trajectory : StompTrajectory)
    (feature_values : MatrixXd) (compute_gradients : Bool) (gradients : List MatrixXd)
    (validities : List Int) (thread_id start_timestep num_time_steps : Int)
    (h0 : 0 ≤ start_timestep)
    (h1 : start_timestep + num_time_steps ≤ trajectory.num_time_steps_)
    (h2 : trajectory.num_time_steps_ ≤ trajectory.kinematic_states_.length) :
    ∃ s out,
      runSteps self trajectory start_timestep num_time_steps = .ok s ∧
      computeValuesAndGradients self trajectory feature_values compute_gradients gradients
        validities thread_id start_timestep num_time_steps = .ok out ∧
      ∀ t : Int, start_timestep ≤ t → t < start_timestep + num_time_steps →
        s.feature_values.coeff t.toNat 0 =
          potentialOf self.clearance_ (worldResultAt self trajectory start_timestep t) +
            potentialOf self.clearance_ (selfResultAt self trajectory start_timestep t) ∧
        out.feature_values.coeff t.toNat 0 =
          (potentialOf self.clearance_ (worldResultAt self trajectory start_timestep t) +
            potentialOf self.clearance_ (selfResultAt self trajectory start_timestep t)) /
            (s.max_depth + self.clearance_) := by
  obtain ⟨s, hs, hinv⟩ := runSteps_ok self trajectory start_timestep num_time_steps h0 h1 h2
  refine ⟨s, _, hs, computeValuesAndGradients_ok self trajectory feature_values
    compute_gradients gradients validities thread_id start_timestep num_time_steps s hs, ?_⟩
  intro t ht1 ht2
  have hin : start_timestep.toNat ≤ t.toNat ∧
      t.toNat < start_timestep.toNat + num_time_steps.toNat ∧ (0 : Nat) = 0 := by omega
  have hidx : t.toNat - start_timestep.toNat + 1 = (t - start_timestep).toNat + 1 := by omega
  have hc := hinv.coeff t.toNat 0
  rw [if_pos hin, hidx] at hc
  refine ⟨hc, ?_⟩
  show s.feature_values.coeff t.toNat 0 * (1 / (s.max_depth + self.clearance_)) = _
  rw [hc, mul_one_div]
  rfl

/-- C1, at a concrete input: one step, a world collision of depth 0.02, no self collision at
distance 0.2, clearance 0.01. -/
theorem normalization_law_witness :
    (0 : Int) ≤ 0 ∧ (0 : Int) + 1 ≤ oneStepTrajectory.num_time_steps_ ∧
    oneStepTrajectory.num_time_steps_ ≤ oneStepTrajectory.kinematic_states_.length ∧
    ∃ s out,
      runSteps collisionScenario
        oneStepTrajectory 0 1 = .ok s ∧
      computeValuesAndGradients
        collisionScenario
        oneStepTrajectory (MatrixXd.Zero 0 0) false [] [] 0 0 1 = .ok out ∧
      ∀ t : Int, 0 ≤ t → t < 0 + 1 →
        s.feature_values.coeff t.toNat 0 =
          potentialOf collisionScenario.clearance_
            (worldResultAt collisionScenario oneStepTrajectory 0 t) +
          potentialOf collisionScenario.clearance_
            (selfResultAt collisionScenario oneStepTrajectory 0 t) ∧
        out.feature_values.coeff t.toNat 0 =
          (potentialOf collisionScenario.clearance_
            (worldResultAt collisionScenario oneStepTrajectory 0 t) +
          potentialOf collisionScenario.clearance_
            (selfResultAt collisionScenario oneStepTrajectory 0 t)) /
            (s.max_depth + collisionScenario.clearance_) :=
  ⟨by decide, by decide, by decide,
    normalization_law collisionScenario
      oneStepTrajectory (MatrixXd.Zero 0 0) false [] [] 0 0 1 (by decide) (by decide)
      (by decide)⟩


/-- C2 (validity flags): for a requested range that lies inside the trajectory, the call
returns, and for every step `t` of the range the returned validity flag is `0` exactly when
the world check or the self check reports a collision at step `t`, and `1` exactly when
neither does; in particular it is `0` when both do. -/
theorem validity_flag_iff_collision (self : ObstacleAvoidanceFeature)
    (trajectory : StompTrajectory) (feature_values : MatrixXd) (compute_gradients : Bool)
    (gradients : List MatrixXd) (validities : List Int)
    (thread_id start_timestep num_time_steps : Int)
    (h0 : 0 ≤ start_timestep)
    (h1 : start_timestep + num_time_steps ≤ trajectory.num_time_steps_)
    (h2 : trajectory.num_time_steps_ ≤ trajectory.kinematic_states_.length) :
    ∃ out,
      computeValuesAndGradients self trajectory feature_values compute_gradients gradients
        validities thread_id start_timestep num_time_steps = .ok out ∧
      ∀ t : Int, start_timestep ≤ t → t < start_timestep + num_time_steps →
        (out.validities[t.toNat]? = some 0 ↔
          ((worldResultAt self trajectory start_timestep t).collision = true ∨
            (selfResultAt self trajectory start_timestep t).collision = true)) ∧
        (out.validities[t.toNat]? = some 1 ↔
          ¬ ((worldResultAt self trajectory start_timestep t).collision = true ∨
            (selfResultAt self trajectory start_timestep t).collision = true)) ∧
        ((worldResultAt self trajectory start_timestep t).collision = true →
          (selfResultAt self trajectory start_timestep t).collision = true →
          out.validities[t.toNat]? = some 0) := by
  obtain ⟨s, hs, hinv⟩ := runSteps_ok self trajectory start_timestep num_time_steps h0 h1 h2
  refine ⟨_, computeValuesAndGradients_ok self trajectory feature_values
    compute_gradients gradients validities thread_id start_timestep num_time_steps s hs, ?_⟩
  intro t ht1 ht2
  have hidx : t.toNat - start_timestep.toNat + 1 = (t - start_timestep).toNat + 1 := by omega
  have hv := hinv.valid t.toNat (by omega)
  rw [hidx] at hv
  have hr1 : start_timestep.toNat ≤ t.toNat := by omega
  have hr2 : t.toNat < start_timestep.toNat + num_time_steps.toNat := by omega
  show (s.validities[t.toNat]? = some 0 ↔ _) ∧ (s.validities[t.toNat]? = some 1 ↔ _) ∧
    (_ → _ → s.validities[t.toNat]? = some 0)
  rw [hv]
  unfold worldResultAt selfResultAt
  by_cases hc : (resultsAfter self trajectory start_timestep
        ((t - start_timestep).toNat + 1)).1.collision = true ∨
      (resultsAfter self trajectory start_timestep
        ((t - start_timestep).toNat + 1)).2.collision = true
  · have hcond : start_timestep.toNat ≤ t.toNat ∧
        t.toNat < start_timestep.toNat + num_time_steps.toNat ∧
        ((resultsAfter self trajectory start_timestep
            ((t - start_timestep).toNat + 1)).1.collision = true ∨
          (resultsAfter self trajectory start_timestep
            ((t - start_timestep).toNat + 1)).2.collision = true) := ⟨hr1, hr2, hc⟩
    rw [if_pos hcond]
    simp [hc]
  · have hcond : ¬ (start_timestep.toNat ≤ t.toNat ∧
        t.toNat < start_timestep.toNat + num_time_steps.toNat ∧
        ((resultsAfter self trajectory start_timestep
            ((t - start_timestep).toNat + 1)).1.collision = true ∨
          (resultsAfter self trajectory start_timestep
            ((t - start_timestep).toNat + 1)).2.collision = true)) := fun h => hc h.2.2
    rw [if_neg hcond]
    refine ⟨?_, ?_, ?_⟩
    · simp [hc]
    · simp [hc]
    · intro hw _
      exact absurd (Or.inl hw) hc

/-- C2, at a concrete input: one step at which both the world check and the self check
collide. -/
theorem validity_flag_iff_collision_witness :
    (0 : Int) ≤ 0 ∧ (0 : Int) + 1 ≤ oneStepTrajectory.num_time_steps_ ∧
    oneStepTrajectory.num_time_steps_ ≤ oneStepTrajectory.kinematic_states_.length ∧
    ∃ out,
      computeValuesAndGradients doubleCollisionScenario oneStepTrajectory (MatrixXd.Zero 0 0)
        false [] [] 0 0 1 = .ok out ∧
      ∀ t : Int, 0 ≤ t → t < 0 + 1 →
        (out.validities[t.toNat]? = some 0 ↔
          ((worldResultAt doubleCollisionScenario oneStepTrajectory 0 t).collision = true ∨
            (selfResultAt doubleCollisionScenario oneStepTrajectory 0 t).collision = true)) ∧
        (out.validities[t.toNat]? = some 1 ↔
          ¬ ((worldResultAt doubleCollisionScenario oneStepTrajectory 0 t).collision = true ∨
            (selfResultAt doubleCollisionScenario oneStepTrajectory 0 t).collision = true)) ∧
        ((worldResultAt doubleCollisionScenario oneStepTrajectory 0 t).collision = true →
          (selfResultAt doubleCollisionScenario oneStepTrajectory 0 t).collision = true →
          out.validities[t.toNat]? = some 0) :=
  ⟨by decide, by decide, by decide,
    validity_flag_iff_collision doubleCollisionScenario oneStepTrajectory (MatrixXd.Zero 0 0)
      false [] [] 0 0 1 (by decide) (by decide) (by decide)⟩


/-! ## Properties of the handling of one result -/

/-- C3 (collision-free result): when a result does not signal a collision and the step index
is inside the feature matrix, the handling of the result adds to the feature value of the
step `clearance - distance` if `0 < distance < clearance`, and exactly `0` if
`distance >= clearance` or `distance <= 0`; it leaves every validity flag and `max_depth` as
they were. -/
theorem collision_free_potential (clearance : ℚ) (t : Int) (a : Accum)
    (result : CollisionResult) (hcol : result.collision = false)
    (ht : 0 ≤ t) (hr : t.toNat < a.feature_values.rows) (hc : 0 < a.feature_values.cols) :
    ∃ a', evalResult clearance t a result = .ok a' ∧
      (0 < result.distance → result.distance < clearance →
        a'.feature_values.coeff t.toNat 0 =
          a.feature_values.coeff t.toNat 0 + (clearance - result.distance)) ∧
      (clearance ≤ result.distance ∨ result.distance ≤ 0 →
        a'.feature_values.coeff t.toNat 0 = a.feature_values.coeff t.toNat 0 + 0) ∧
      a'.validities = a.validities ∧ a'.max_depth = a.max_depth := by
  unfold evalResult
  simp only [hcol, Bool.false_eq_true, if_false, MatrixXd.addAt, ht, hr, hc, Int.toNat_zero,
    le_refl, and_self, if_true, gt_iff_lt]
  refine ⟨_, rfl, ?_, ?_, rfl, rfl⟩
  · intro h1 h2
    simp [h1, h2]
  · intro h
    rcases h with h | h
    · simp [not_lt.mpr h]
    · simp [not_lt.mpr h]

/-- C3, at a concrete input: distance 0.005 under clearance 0.01. -/
theorem collision_free_potential_witness :
    nearResult.collision = false ∧ (0 : Int) ≤ 0 ∧
    (0 : Int).toNat < freshAccum.feature_values.rows ∧ 0 < freshAccum.feature_values.cols ∧
    ∃ a', evalResult (1 / 100) 0 freshAccum nearResult = .ok a' ∧
      (0 < nearResult.distance → nearResult.distance < 1 / 100 →
        a'.feature_values.coeff (0 : Int).toNat 0 =
          freshAccum.feature_values.coeff (0 : Int).toNat 0 + (1 / 100 - nearResult.distance)) ∧
      (1 / 100 ≤ nearResult.distance ∨ nearResult.distance ≤ 0 →
        a'.feature_values.coeff (0 : Int).toNat 0 =
          freshAccum.feature_values.coeff (0 : Int).toNat 0 + 0) ∧
      a'.validities = freshAccum.validities ∧ a'.max_depth = freshAccum.max_depth :=
  ⟨rfl, by decide, by decide, by decide,
    collision_free_potential (1 / 100) 0 freshAccum nearResult rfl (by decide) (by decide)
      (by decide)⟩

/-- C4 (colliding result): when a result signals a collision and the step index is inside the
feature matrix and the validity vector, the handling of the result adds to the feature value
of the step `|depth| + clearance`, where `depth` is the depth of the last contact in scan
order (groups in map order, contacts in list order within a group) whatever contacts come
before it, and `0 + clearance` when the result carries no contact. -/
theorem collision_potential (clearance : ℚ) (t : Int) (a : Accum) (result : CollisionResult)
    (hcol : result.collision = true)
    (ht : 0 ≤ t) (hr : t.toNat < a.feature_values.rows) (hc : 0 < a.feature_values.cols)
    (hv : t.toNat < a.validities.length) :
    ∃ a', evalResult clearance t a result = .ok a' ∧
      (allContacts result.contacts = [] →
        a'.feature_values.coeff t.toNat 0 = a.feature_values.coeff t.toNat 0 + (0 + clearance)) ∧
      (∀ (before : List Contact) (last : Contact),
        allContacts result.contacts = before ++ [last] →
        a'.feature_values.coeff t.toNat 0 =
          a.feature_values.coeff t.toNat 0 + (|last.depth| + clearance)) := by
  refine ⟨_, evalResult_ok clearance t a result ht hr hc hv, ?_, ?_⟩
  · intro h
    simp [potentialOf, hcol, lastDepth, h]
  · intro before last h
    simp [potentialOf, hcol, lastDepth, h]

/-- C4, at a concrete input: three contacts of depths -0.03, 0.05 and -0.02 in two groups;
the contribution is `|-0.02| + clearance`. -/
theorem collision_potential_witness :
    hitResult.collision = true ∧ (0 : Int) ≤ 0 ∧
    (0 : Int).toNat < freshAccum.feature_values.rows ∧ 0 < freshAccum.feature_values.cols ∧
    (0 : Int).toNat < freshAccum.validities.length ∧
    ∃ a', evalResult (1 / 100) 0 freshAccum hitResult = .ok a' ∧
      (allContacts hitResult.contacts = [] →
        a'.feature_values.coeff (0 : Int).toNat 0 =
          freshAccum.feature_values.coeff (0 : Int).toNat 0 + (0 + 1 / 100)) ∧
      (∀ (before : List Contact) (last : Contact),
        allContacts hitResult.contacts = before ++ [last] →
        a'.feature_values.coeff (0 : Int).toNat 0 =
          freshAccum.feature_values.coeff (0 : Int).toNat 0 + (|last.depth| + 1 / 100)) :=
  ⟨rfl, by decide, by decide, by decide, by decide,
    collision_potential (1 / 100) 0 freshAccum hitResult rfl (by decide) (by decide)
      (by decide) (by decide)⟩


/-! ## The maximum depth -/

/-- C5 (the maximum depth): for a requested range that lies inside the trajectory, and an
engine whose collision-free results carry no contact, the step loop ends with `max_depth`
the largest absolute depth over every contact of the world result and of the self result of
every step of the range: it bounds each of them, it is `0` or the absolute depth of one of
them, and it is `0` when there is none. Only the steps of the range enter, and the value
starts from `0` at the call. -/
theorem max_depth_is_largest (self : ObstacleAvoidanceFeature) (trajectory : StompTrajectory)
    (start_timestep num_time_steps : Int)
    (h0 : 0 ≤ start_timestep)
    (h1 : start_timestep + num_time_steps ≤ trajectory.num_time_steps_)
    (h2 : trajectory.num_time_steps_ ≤ trajectory.kinematic_states_.length)
    (hwf : ∀ t : Int, start_timestep ≤ t → t < start_timestep + num_time_steps →
      ((worldResultAt self trajectory start_timestep t).collision = false →
        allContacts (worldResultAt self trajectory start_timestep t).contacts = []) ∧
      ((selfResultAt self trajectory start_timestep t).collision = false →
        allContacts (selfResultAt self trajectory start_timestep t).contacts = [])) :
    ∃ s, runSteps self trajectory start_timestep num_time_steps = .ok s ∧
      (∀ t : Int, start_timestep ≤ t → t < start_timestep + num_time_steps →
        ∀ c ∈ allContacts (worldResultAt self trajectory start_timestep t).contacts ++
            allContacts (selfResultAt self trajectory start_timestep t).contacts,
          |c.depth| ≤ s.max_depth) ∧
      (s.max_depth = 0 ∨
        ∃ t : Int, start_timestep ≤ t ∧ t < start_timestep + num_time_steps ∧
          ∃ c ∈ allContacts (worldResultAt self trajectory start_timestep t).contacts ++
              allContacts (selfResultAt self trajectory start_timestep t).contacts,
            s.max_depth = |c.depth|) ∧
      ((∀ t : Int, start_timestep ≤ t → t < start_timestep + num_time_steps →
          allContacts (worldResultAt self trajectory start_timestep t).contacts ++
            allContacts (selfResultAt self trajectory start_timestep t).contacts = []) →
        s.max_depth = 0) := by
  obtain ⟨s, hs, hinv⟩ := runSteps_ok self trajectory start_timestep num_time_steps h0 h1 h2
  have hattain : s.max_depth = 0 ∨
      ∃ t : Int, start_timestep ≤ t ∧ t < start_timestep + num_time_steps ∧
        ∃ c ∈ allContacts (worldResultAt self trajectory start_timestep t).contacts ++
            allContacts (selfResultAt self trajectory start_timestep t).contacts,
          s.max_depth = |c.depth| := by
    rcases runningMax_eq_or_mem 0
        (depthsScanned self trajectory start_timestep num_time_steps.toNat) with h | h
    · left; rw [hinv.depth, h]
    · right
      rw [← hinv.depth, mem_depthsScanned] at h
      obtain ⟨j, hj, hmem⟩ := h
      have hjt : (start_timestep + (j : Int) - start_timestep).toNat + 1 = j + 1 := by omega
      refine ⟨start_timestep + j, by omega, by omega, ?_⟩
      unfold worldResultAt selfResultAt
      rw [hjt]
      rcases hmem with hmem | hmem
      · obtain ⟨_, c, hc, hcd⟩ := (mem_scannedDepths _ _).mp hmem
        exact ⟨c, List.mem_append_left _ hc, hcd⟩
      · obtain ⟨_, c, hc, hcd⟩ := (mem_scannedDepths _ _).mp hmem
        exact ⟨c, List.mem_append_right _ hc, hcd⟩
  refine ⟨s, hs, ?_, hattain, ?_⟩
  · intro t ht1 ht2 c hc
    rw [hinv.depth]
    apply mem_le_runningMax
    rw [mem_depthsScanned]
    have hjt : (t - start_timestep).toNat < num_time_steps.toNat := by omega
    refine ⟨(t - start_timestep).toNat, hjt, ?_⟩
    obtain ⟨hw, hr⟩ := hwf t ht1 ht2
    unfold worldResultAt at hw hc
    unfold selfResultAt at hr hc
    rcases List.mem_append.mp hc with hc | hc
    · left
      refine (mem_scannedDepths _ _).mpr ⟨?_, c, hc, rfl⟩
      by_contra hcol
      rw [hw (by simpa using hcol)] at hc
      simp at hc
    · right
      refine (mem_scannedDepths _ _).mpr ⟨?_, c, hc, rfl⟩
      by_contra hcol
      rw [hr (by simpa using hcol)] at hc
      simp at hc
  · intro hnone
    rcases hattain with h | ⟨t, ht1, ht2, c, hc, _⟩
    · exact h
    · rw [hnone t ht1 ht2] at hc
      simp at hc


theorem collisionScenario_wellFormed :
    ∀ t : Int, (1 : Int) ≤ t → t < 1 + 2 →
      ((worldResultAt collisionScenario threeStepTrajectory 1 t).collision = false →
        allContacts (worldResultAt collisionScenario threeStepTrajectory 1 t).contacts = []) ∧
      ((selfResultAt collisionScenario threeStepTrajectory 1 t).collision = false →
        allContacts (selfResultAt collisionScenario threeStepTrajectory 1 t).contacts = []) := by
  intro t ht1 ht2
  have ht : t = 1 ∨ t = 2 := by omega
  rcases ht with rfl | rfl <;>
    simp [worldResultAt, selfResultAt, resultsAfter, worldQuery, selfQuery, collisionScenario,
      featureOn, worldInCollision, robotAtDistance, CollisionResult.init, allContacts]

/-- C5, at a concrete input: steps 1 and 2 of a three-step trajectory, the world check
colliding at a depth of 0.02 at each of them. -/
theorem max_depth_is_largest_witness :
    (0 : Int) ≤ 1 ∧ (1 : Int) + 2 ≤ threeStepTrajectory.num_time_steps_ ∧
    threeStepTrajectory.num_time_steps_ ≤ threeStepTrajectory.kinematic_states_.length ∧
    (∀ t : Int, (1 : Int) ≤ t → t < 1 + 2 →
      ((worldResultAt collisionScenario threeStepTrajectory 1 t).collision = false →
        allContacts (worldResultAt collisionScenario threeStepTrajectory 1 t).contacts = []) ∧
      ((selfResultAt collisionScenario threeStepTrajectory 1 t).collision = false →
        allContacts (selfResultAt collisionScenario threeStepTrajectory 1 t).contacts = [])) ∧
    ∃ s, runSteps collisionScenario threeStepTrajectory 1 2 = .ok s ∧
      (∀ t : Int, (1 : Int) ≤ t → t < 1 + 2 →
        ∀ c ∈ allContacts (worldResultAt collisionScenario threeStepTrajectory 1 t).contacts ++
            allContacts (selfResultAt collisionScenario threeStepTrajectory 1 t).contacts,
          |c.depth| ≤ s.max_depth) ∧
      (s.max_depth = 0 ∨
        ∃ t : Int, (1 : Int) ≤ t ∧ t < 1 + 2 ∧
          ∃ c ∈ allContacts (worldResultAt collisionScenario threeStepTrajectory 1 t).contacts ++
              allContacts (selfResultAt collisionScenario threeStepTrajectory 1 t).contacts,
            s.max_depth = |c.depth|) ∧
      ((∀ t : Int, (1 : Int) ≤ t → t < 1 + 2 →
          allContacts (worldResultAt collisionScenario threeStepTrajectory 1 t).contacts ++
            allContacts (selfResultAt collisionScenario threeStepTrajectory 1 t).contacts = []) →
        s.max_depth = 0) :=
  ⟨by decide, by decide, by decide, collisionScenario_wellFormed,
    max_depth_is_largest collisionScenario threeStepTrajectory 1 2 (by decide) (by decide)
      (by decide) collisionScenario_wellFormed⟩


/-! ## The step that holds the deepest penetration -/

/-- C6 as stated fails: one step, clearance 0.01, a world collision with one contact of depth
0.02 and a collision-free self check at distance 0.005. The step holds the only contact of
the range, hence its deepest penetration, `max_depth` is 0.02, and the normalized feature
value of the step is `(0.03 + 0.005) / 0.03 = 7/6`, not `1`. -/
theorem deepest_step_value_not_one :
    ∃ s out,
      runSteps grazingCollisionScenario oneStepTrajectory 0 1 = .ok s ∧
      computeValuesAndGradients grazingCollisionScenario oneStepTrajectory (MatrixXd.Zero 0 0)
        false [] [] 0 0 1 = .ok out ∧
      (worldResultAt grazingCollisionScenario oneStepTrajectory 0 0).collision = true ∧
      allContacts (worldResultAt grazingCollisionScenario oneStepTrajectory 0 0).contacts =
        [⟨1 / 50⟩] ∧
      s.max_depth = 1 / 50 ∧
      out.feature_values.coeff 0 0 = 7 / 6 ∧
      out.feature_values.coeff 0 0 ≠ 1 := by
  have hs : ∃ s, runSteps grazingCollisionScenario oneStepTrajectory 0 1 = .ok s ∧
      s.max_depth = 1 / 50 ∧ s.feature_values.coeff 0 0 = 7 / 200 := by
    simp [runSteps, stepLoop, stepBody, vectorGet, oneStepTrajectory, evalResults, evalResult,
      worldQuery, selfQuery, grazingCollisionScenario, featureOn, worldInCollision,
      robotAtDistance, makeRequest, CollisionResult.init, MatrixXd.addAt, MatrixXd.Zero,
      getNumValues, NUM_FEATURE_VALUES, vectorSet, scanContactMap, scanContactArray]
    norm_num [abs_of_pos]
  obtain ⟨s, hrun, hmd, hfv⟩ := hs
  have hval : s.feature_values.coeff 0 0 * (1 / (s.max_depth + 1 / 100)) = 7 / 6 := by
    rw [hmd, hfv]
    norm_num
  refine ⟨s, _, hrun, computeValuesAndGradients_ok grazingCollisionScenario oneStepTrajectory
    (MatrixXd.Zero 0 0) false [] [] 0 0 1 s hrun, ?_, ?_, hmd, hval, ?_⟩
  · simp [worldResultAt, resultsAfter, worldQuery, grazingCollisionScenario, featureOn,
      worldInCollision]
  · simp [worldResultAt, resultsAfter, worldQuery, grazingCollisionScenario, featureOn,
      worldInCollision, allContacts]
  · show s.feature_values.coeff 0 0 * (1 / (s.max_depth + 1 / 100)) ≠ 1
    rw [hval]
    norm_num


/-- C6 as amended: with a clearance above `0`, if at a step `t` of the requested range one
of the two sub-checks signals a collision, the last contact scanned for it has the absolute
depth `MaxDepth` (it is the deepest penetration of the range), and the other sub-check adds
no potential (no collision, and a distance that is `>= clearance` or `<= 0`), then the
normalized feature value of `t` is `1` and its validity flag is `0`. -/
theorem deepest_step_value_one (self : ObstacleAvoidanceFeature) (trajectory : StompTrajectory)
    (feature_values : MatrixXd) (compute_gradients : Bool) (gradients : List MatrixXd)
    (validities : List Int) (thread_id start_timestep num_time_steps t : Int)
    (h0 : 0 ≤ start_timestep)
    (h1 : start_timestep + num_time_steps ≤ trajectory.num_time_steps_)
    (h2 : trajectory.num_time_steps_ ≤ trajectory.kinematic_states_.length)
    (ht1 : start_timestep ≤ t) (ht2 : t < start_timestep + num_time_steps)
    (hpos : 0 < self.clearance_)
    (hdeep :
      ((worldResultAt self trajectory start_timestep t).collision = true ∧
        lastDepth (worldResultAt self trajectory start_timestep t).contacts =
          maxDepthOf self trajectory start_timestep num_time_steps ∧
        (selfResultAt self trajectory start_timestep t).collision = false ∧
        (self.clearance_ ≤ (selfResultAt self trajectory start_timestep t).distance ∨
          (selfResultAt self trajectory start_timestep t).distance ≤ 0)) ∨
      ((selfResultAt self trajectory start_timestep t).collision = true ∧
        lastDepth (selfResultAt self trajectory start_timestep t).contacts =
          maxDepthOf self trajectory start_timestep num_time_steps ∧
        (worldResultAt self trajectory start_timestep t).collision = false ∧
        (self.clearance_ ≤ (worldResultAt self trajectory start_timestep t).distance ∨
          (worldResultAt self trajectory start_timestep t).distance ≤ 0))) :
    ∃ out,
      computeValuesAndGradients self trajectory feature_values compute_gradients gradients
        validities thread_id start_timestep num_time_steps = .ok out ∧
      out.feature_values.coeff t.toNat 0 = 1 ∧ out.validities[t.toNat]? = some 0 := by
  obtain ⟨s, hs, hinv⟩ := runSteps_ok self trajectory start_timestep num_time_steps h0 h1 h2
  have hmd : maxDepthOf self trajectory start_timestep num_time_steps = s.max_depth := by
    simp only [maxDepthOf, hs]
  have hnonneg : 0 ≤ s.max_depth := by
    rw [hinv.depth]
    exact le_runningMax 0 _
  have hne : s.max_depth + self.clearance_ ≠ 0 := by
    have : 0 < s.max_depth + self.clearance_ := add_pos_of_nonneg_of_pos hnonneg hpos
    exact ne_of_gt this
  have hin : start_timestep.toNat ≤ t.toNat ∧
      t.toNat < start_timestep.toNat + num_time_steps.toNat ∧ (0 : Nat) = 0 := by omega
  have hidx : t.toNat - start_timestep.toNat + 1 = (t - start_timestep).toNat + 1 := by omega
  have hc := hinv.coeff t.toNat 0
  rw [if_pos hin, hidx] at hc
  have hv := hinv.valid t.toNat (by omega)
  rw [hidx] at hv
  have hzero : ∀ r : CollisionResult, r.collision = false →
      (self.clearance_ ≤ r.distance ∨ r.distance ≤ 0) → potentialOf self.clearance_ r = 0 := by
    intro r hr hd
    unfold potentialOf
    rw [if_neg (by simp [hr])]
    rcases hd with hd | hd
    · rw [if_neg (fun h => absurd h.2 (not_lt.mpr hd))]
    · rw [if_neg (fun h => absurd h.1 (not_lt.mpr hd))]
  have hfull : ∀ r : CollisionResult, r.collision = true → lastDepth r.contacts = s.max_depth →
      potentialOf self.clearance_ r = s.max_depth + self.clearance_ := by
    intro r hr hd
    unfold potentialOf
    rw [if_pos hr, hd]
  refine ⟨_, computeValuesAndGradients_ok self trajectory feature_values
    compute_gradients gradients validities thread_id start_timestep num_time_steps s hs, ?_, ?_⟩
  · show s.feature_values.coeff t.toNat 0 * (1 / (s.max_depth + self.clearance_)) = 1
    rw [hc]
    unfold worldResultAt selfResultAt at hdeep
    rw [hmd] at hdeep
    rcases hdeep with ⟨hw, hl, hr, hd⟩ | ⟨hr, hl, hw, hd⟩
    · rw [hfull _ hw hl, hzero _ hr hd, add_zero, mul_one_div, div_self hne]
    · rw [hfull _ hr hl, hzero _ hw hd, zero_add, mul_one_div, div_self hne]
  · show s.validities[t.toNat]? = some 0
    rw [hv]
    unfold worldResultAt selfResultAt at hdeep
    have hcond : start_timestep.toNat ≤ t.toNat ∧
        t.toNat < start_timestep.toNat + num_time_steps.toNat ∧
        ((resultsAfter self trajectory start_timestep
            ((t - start_timestep).toNat + 1)).1.collision = true ∨
          (resultsAfter self trajectory start_timestep
            ((t - start_timestep).toNat + 1)).2.collision = true) := by
      refine ⟨hin.1, hin.2.1, ?_⟩
      rcases hdeep with ⟨hw, _⟩ | ⟨hr, _⟩
      · exact Or.inl hw
      · exact Or.inr hr
    rw [if_pos hcond]

/-- C6 as amended, at the scenario of the specification: one step, a world collision with
one contact of depth 0.02, no self collision at distance 0.2, clearance 0.01; the normalized
value is `1` and the validity flag is `0`. -/
theorem deepest_step_value_one_witness :
    ∃ out,
      computeValuesAndGradients collisionScenario oneStepTrajectory (MatrixXd.Zero 0 0) false
        [] [] 0 0 1 = .ok out ∧
      out.feature_values.coeff (0 : Int).toNat 0 = 1 ∧
      out.validities[(0 : Int).toNat]? = some 0 :=
  deepest_step_value_one collisionScenario oneStepTrajectory (MatrixXd.Zero 0 0) false [] []
    0 0 1 0 (by decide) (by decide) (by decide) (by decide) (by decide)
    (by norm_num [collisionScenario, featureOn])
    (by
      left
      have hs : ∃ s, runSteps collisionScenario oneStepTrajectory 0 1 = .ok s ∧
          s.max_depth = 1 / 50 := by
        simp [runSteps, stepLoop, stepBody, vectorGet, oneStepTrajectory, evalResults,
          evalResult, worldQuery, selfQuery, collisionScenario, featureOn, worldInCollision,
          robotAtDistance, makeRequest, CollisionResult.init, MatrixXd.addAt, MatrixXd.Zero,
          getNumValues, NUM_FEATURE_VALUES, vectorSet, scanContactMap, scanContactArray]
      obtain ⟨s, hrun, hmd⟩ := hs
      have hmax : maxDepthOf collisionScenario oneStepTrajectory 0 1 = 1 / 50 := by
        simp only [maxDepthOf, hrun, hmd]
      rw [hmax]
      simp [worldResultAt, selfResultAt, resultsAfter, worldQuery, selfQuery, collisionScenario,
        featureOn, worldInCollision, robotAtDistance, CollisionResult.init, allContacts,
        lastDepth]
      norm_num [abs_of_pos])


/-! ## A range without collision -/

/-- C7 (no collision in the range): for a requested range that lies inside the trajectory and
in which neither the world result nor the self result of any step signals a collision, the
call returns with `MaxDepth = 0`, so that the divisor `MaxDepth + clearance` is the clearance
itself, every validity flag is `1`, and the feature value of every step of the range is the
sum of the two collision-free potentials of the step divided by the clearance. -/
theorem collision_free_range (self : ObstacleAvoidanceFeature) (trajectory : StompTrajectory)
    (feature_values : MatrixXd) (compute_gradients : Bool) (gradients : List MatrixXd)
    (validities : List Int) (thread_id start_timestep num_time_steps : Int)
    (h0 : 0 ≤ start_timestep)
    (h1 : start_timestep + num_time_steps ≤ trajectory.num_time_steps_)
    (h2 : trajectory.num_time_steps_ ≤ trajectory.kinematic_states_.length)
    (hfree : ∀ t : Int, start_timestep ≤ t → t < start_timestep + num_time_steps →
      (worldResultAt self trajectory start_timestep t).collision = false ∧
      (selfResultAt self trajectory start_timestep t).collision = false) :
    ∃ s out,
      runSteps self trajectory start_timestep num_time_steps = .ok s ∧
      computeValuesAndGradients self trajectory feature_values compute_gradients gradients
        validities thread_id start_timestep num_time_steps = .ok out ∧
      s.max_depth = 0 ∧ s.max_depth + self.clearance_ = self.clearance_ ∧
      out.validities = List.replicate trajectory.num_time_steps_ 1 ∧
      ∀ t : Int, start_timestep ≤ t → t < start_timestep + num_time_steps →
        out.feature_values.coeff t.toNat 0 =
          ((if 0 < (worldResultAt self trajectory start_timestep t).distance ∧
                (worldResultAt self trajectory start_timestep t).distance < self.clearance_
              then self.clearance_ - (worldResultAt self trajectory start_timestep t).distance
              else 0) +
            (if 0 < (selfResultAt self trajectory start_timestep t).distance ∧
                (selfResultAt self trajectory start_timestep t).distance < self.clearance_
              then self.clearance_ - (selfResultAt self trajectory start_timestep t).distance
              else 0)) / self.clearance_ := by
  obtain ⟨s, hs, hinv⟩ := runSteps_ok self trajectory start_timestep num_time_steps h0 h1 h2
  have hfreeK : ∀ j : Nat, j < num_time_steps.toNat →
      (resultsAfter self trajectory start_timestep (j + 1)).1.collision = false ∧
      (resultsAfter self trajectory start_timestep (j + 1)).2.collision = false := by
    intro j hj
    have h := hfree (start_timestep + j) (by omega) (by omega)
    have hjt : (start_timestep + (j : Int) - start_timestep).toNat + 1 = j + 1 := by omega
    unfold worldResultAt selfResultAt at h
    rw [hjt] at h
    exact h
  have hmd : s.max_depth = 0 := by
    rcases runningMax_eq_or_mem 0
        (depthsScanned self trajectory start_timestep num_time_steps.toNat) with h | h
    · rw [hinv.depth, h]
    · exfalso
      rw [mem_depthsScanned] at h
      obtain ⟨j, hj, hmem⟩ := h
      obtain ⟨hw, hr⟩ := hfreeK j hj
      rcases hmem with hmem | hmem
      · have := ((mem_scannedDepths _ _).mp hmem).1
        rw [hw] at this
        exact Bool.false_ne_true this
      · have := ((mem_scannedDepths _ _).mp hmem).1
        rw [hr] at this
        exact Bool.false_ne_true this
  have hvalid : s.validities = List.replicate trajectory.num_time_steps_ 1 := by
    apply List.ext_getElem?
    intro i
    by_cases hi : i < trajectory.num_time_steps_
    · rw [hinv.valid i hi, List.getElem?_replicate, if_pos hi]
      have hcond : ¬ (start_timestep.toNat ≤ i ∧ i < start_timestep.toNat + num_time_steps.toNat ∧
          ((resultsAfter self trajectory start_timestep
              (i - start_timestep.toNat + 1)).1.collision = true ∨
            (resultsAfter self trajectory start_timestep
              (i - start_timestep.toNat + 1)).2.collision = true)) := by
        rintro ⟨ha, hb, hc⟩
        obtain ⟨hw, hr⟩ := hfreeK (i - start_timestep.toNat) (by omega)
        rcases hc with hc | hc
        · rw [hw] at hc
          exact Bool.false_ne_true hc
        · rw [hr] at hc
          exact Bool.false_ne_true hc
      rw [if_neg hcond]
    · rw [List.getElem?_replicate, if_neg hi]
      exact List.getElem?_eq_none (by rw [hinv.len]; omega)
  refine ⟨s, _, hs, computeValuesAndGradients_ok self trajectory feature_values
    compute_gradients gradients validities thread_id start_timestep num_time_steps s hs,
    hmd, by rw [hmd, zero_add], hvalid, ?_⟩
  intro t ht1 ht2
  have hin : start_timestep.toNat ≤ t.toNat ∧
      t.toNat < start_timestep.toNat + num_time_steps.toNat ∧ (0 : Nat) = 0 := by omega
  have hidx : t.toNat - start_timestep.toNat + 1 = (t - start_timestep).toNat + 1 := by omega
  have hc := hinv.coeff t.toNat 0
  rw [if_pos hin, hidx] at hc
  obtain ⟨hw, hr⟩ := hfree t ht1 ht2
  have hc' : s.feature_values.coeff t.toNat 0 =
      potentialOf self.clearance_ (worldResultAt self trajectory start_timestep t) +
        potentialOf self.clearance_ (selfResultAt self trajectory start_timestep t) := hc
  show s.feature_values.coeff t.toNat 0 * (1 / (s.max_depth + self.clearance_)) = _
  rw [hc', hmd, zero_add, mul_one_div]
  simp only [potentialOf, hw, hr, Bool.false_eq_true, if_false]

/-- C7, at the scenario of the specification: one step, world distance 0.005, no self
proximity, clearance 0.01. -/
theorem collision_free_range_witness :
    (∃ s, runSteps nearMissScenario oneStepTrajectory 0 1 = .ok s ∧
      s.feature_values.coeff 0 0 = 1 / 200) ∧
    ∃ s out,
      runSteps nearMissScenario oneStepTrajectory 0 1 = .ok s ∧
      computeValuesAndGradients nearMissScenario oneStepTrajectory (MatrixXd.Zero 0 0) false
        [] [] 0 0 1 = .ok out ∧
      s.max_depth = 0 ∧ s.max_depth + nearMissScenario.clearance_ = nearMissScenario.clearance_ ∧
      out.validities = List.replicate oneStepTrajectory.num_time_steps_ 1 ∧
      ∀ t : Int, 0 ≤ t → t < 0 + 1 →
        out.feature_values.coeff t.toNat 0 =
          ((if 0 < (worldResultAt nearMissScenario oneStepTrajectory 0 t).distance ∧
                (worldResultAt nearMissScenario oneStepTrajectory 0 t).distance <
                  nearMissScenario.clearance_
              then nearMissScenario.clearance_ -
                (worldResultAt nearMissScenario oneStepTrajectory 0 t).distance
              else 0) +
            (if 0 < (selfResultAt nearMissScenario oneStepTrajectory 0 t).distance ∧
                (selfResultAt nearMissScenario oneStepTrajectory 0 t).distance <
                  nearMissScenario.clearance_
              then nearMissScenario.clearance_ -
                (selfResultAt nearMissScenario oneStepTrajectory 0 t).distance
              else 0)) / nearMissScenario.clearance_ :=
  ⟨by
      simp [runSteps, stepLoop, stepBody, vectorGet, oneStepTrajectory, evalResults, evalResult,
        worldQuery, selfQuery, nearMissScenario, featureOn, worldAtDistance, robotAtDistance,
        makeRequest, CollisionResult.init, MatrixXd.addAt, MatrixXd.Zero, getNumValues,
        NUM_FEATURE_VALUES]
      norm_num,
    collision_free_range nearMissScenario oneStepTrajectory (MatrixXd.Zero 0 0) false [] [] 0 0 1
      (by decide) (by decide) (by decide)
      (by
        intro t ht1 ht2
        have ht : t = 0 := by omega
        subst ht
        simp [worldResultAt, selfResultAt, resultsAfter, worldQuery, selfQuery, nearMissScenario,
          featureOn, worldAtDistance, robotAtDistance, CollisionResult.init])⟩


/-! ## Initialization -/

theorem loadParameters_of_member (self : ObstacleAvoidanceFeature) (config : XmlRpcValue)
    (v : ℚ) (hv : config.members.lookup "collision_clearance" = some v) :
    (loadParameters self config).1 = true ∧
      (loadParameters self config).2.clearance_ = if v = 0 then DEFAULT_CLEARANCE else v := by
  unfold loadParameters
  simp only [XmlRpcValue.hasMember, XmlRpcValue.asDouble, hv, Option.isSome_some, if_true,
    Option.getD_some, true_and]
  by_cases h : v = 0
  · simp [h]
  · simp [h]

theorem loadParameters_of_no_member (self : ObstacleAvoidanceFeature) (config : XmlRpcValue)
    (hmiss : config.hasMember "collision_clearance" = false) :
    (loadParameters self config).1 = false ∧
      (loadParameters self config).2.clearance_ = self.clearance_ ∧
      (loadParameters self config).2.toStompCostFeature = self.toStompCostFeature ∧
      (loadParameters self config).2.collision_robot_ = self.collision_robot_ ∧
      (loadParameters self config).2.collision_world_ = self.collision_world_ := by
  unfold loadParameters
  simp [hmiss]

/-- C8 (clearance parameter), the code at the input where it departs from the claim: with
`collision_clearance = 0` `loadParameters` returns true and stores `DEFAULT_CLEARANCE`, which
is not `0` but is the `float` literal `0.01f`, that is `5368709 / 536870912`
(0.009999999776482582), and not the `0.01` of the claim. With a value that is not `0`, here
`0.02`, it returns true and stores the value. -/
theorem loadParameters_default_clearance :
    (loadParameters collisionScenario (configWithClearance 0)).1 = true ∧
    (loadParameters collisionScenario (configWithClearance 0)).2.clearance_ =
      DEFAULT_CLEARANCE ∧
    (loadParameters collisionScenario (configWithClearance 0)).2.clearance_ =
      5368709 / 536870912 ∧
    (loadParameters collisionScenario (configWithClearance 0)).2.clearance_ ≠ 1 / 100 ∧
    (loadParameters collisionScenario (configWithClearance 0)).2.clearance_ ≠ 0 ∧
    (loadParameters collisionScenario (configWithClearance (1 / 50))).1 = true ∧
    (loadParameters collisionScenario (configWithClearance (1 / 50))).2.clearance_ = 1 / 50 := by
  obtain ⟨h1, h2⟩ := loadParameters_of_member collisionScenario (configWithClearance 0) 0
    (by simp [configWithClearance, List.lookup])
  obtain ⟨k1, k2⟩ := loadParameters_of_member collisionScenario (configWithClearance (1 / 50))
    (1 / 50) (by simp [configWithClearance, List.lookup])
  rw [if_pos rfl] at h2
  rw [if_neg (by norm_num)] at k2
  refine ⟨h1, h2, ?_, ?_, ?_, k1, k2⟩
  · rw [h2]; rfl
  · rw [h2]; norm_num [DEFAULT_CLEARANCE]
  · rw [h2]; norm_num [DEFAULT_CLEARANCE]

/-- C9 (missing parameter): for a configuration without `collision_clearance`,
`loadParameters` returns false and the initialization returns false whatever the base-class
initialization does and returns; the stored clearance is the same after the call as before
it, and so are the two engine pointers. -/
theorem initFeature_missing_parameter
    (baseInit :
      StompCostFeature → XmlRpcValue → Int → String → PlanningScene → Bool × StompCostFeature)
    (self : ObstacleAvoidanceFeature) (config : XmlRpcValue) (num_threads : Int)
    (group_name : String) (planning_scene : PlanningScene)
    (hmiss : "collision_clearance" ∉ config.members.map Prod.fst) :
    (loadParameters self config).1 = false ∧
      (loadParameters self config).2.clearance_ = self.clearance_ ∧
      (initFeature baseInit self config num_threads group_name planning_scene).1 = false ∧
      (initFeature baseInit self config num_threads group_name planning_scene).2.clearance_ =
        self.clearance_ ∧
      (initFeature baseInit self config num_threads group_name planning_scene).2.collision_robot_ =
        self.collision_robot_ ∧
      (initFeature baseInit self config num_threads group_name planning_scene).2.collision_world_ =
        self.collision_world_ := by
  have hnone : ∀ l : List (String × ℚ), "collision_clearance" ∉ l.map Prod.fst →
      l.lookup "collision_clearance" = none := by
    intro l
    induction l with
    | nil => intro _; rfl
    | cons p rest ih =>
      intro h
      have hp : ¬ ("collision_clearance" = p.1) := fun e => h (by simp [e])
      have hr : "collision_clearance" ∉ rest.map Prod.fst := fun e => h (by simp [e])
      obtain ⟨k, v⟩ := p
      have hbeq : ("collision_clearance" == k) = false := by simpa using hp
      simp only [List.lookup, hbeq]
      exact ih hr
  have hm : config.hasMember "collision_clearance" = false := by
    simp [XmlRpcValue.hasMember, hnone config.members hmiss]
  obtain ⟨l1, l2, _, _, _⟩ := loadParameters_of_no_member self config hm
  refine ⟨l1, l2, ?_⟩
  unfold initFeature
  by_cases hb : (baseInit self.toStompCostFeature config num_threads group_name
      planning_scene).1 = true
  · simp only [hb, if_true]
    obtain ⟨k1, k2, _, k4, k5⟩ := loadParameters_of_no_member
      { self with toStompCostFeature :=
          (baseInit self.toStompCostFeature config num_threads group_name planning_scene).2 }
      config hm
    exact ⟨k1, k2, k4, k5⟩
  · simp [hb]

/-- C9, at a concrete input: a configuration whose only member is another parameter, and a
base-class initialization that succeeds. -/
theorem initFeature_missing_parameter_witness :
    "collision_clearance" ∉ configWithoutClearance.members.map Prod.fst ∧
    (initFeature baseInitStoring collisionScenario configWithoutClearance 4 "manipulator"
      collisionScenario.planning_scene_).1 = false ∧
    (initFeature baseInitStoring collisionScenario configWithoutClearance 4 "manipulator"
      collisionScenario.planning_scene_).2.clearance_ = collisionScenario.clearance_ :=
  ⟨by simp [configWithoutClearance],
    (initFeature_missing_parameter baseInitStoring collisionScenario configWithoutClearance 4
      "manipulator" collisionScenario.planning_scene_ (by simp [configWithoutClearance])).2.2.1,
    (initFeature_missing_parameter baseInitStoring collisionScenario configWithoutClearance 4
      "manipulator" collisionScenario.planning_scene_ (by simp [configWithoutClearance])).2.2.2.1⟩

/-- C10 as stated fails: with `collision_clearance = -0.01` the load succeeds and the
effective clearance is `-0.01`, which is not strictly positive. -/
theorem clearance_can_be_negative :
    (loadParameters collisionScenario (configWithClearance (-1 / 100))).1 = true ∧
    (loadParameters collisionScenario (configWithClearance (-1 / 100))).2.clearance_ =
      -1 / 100 ∧
    ¬ (0 < (loadParameters collisionScenario (configWithClearance (-1 / 100))).2.clearance_) := by
  obtain ⟨h1, h2⟩ := loadParameters_of_member collisionScenario
    (configWithClearance (-1 / 100)) (-1 / 100) (by simp [configWithClearance, List.lookup])
  have h3 : (loadParameters collisionScenario (configWithClearance (-1 / 100))).2.clearance_ =
      -1 / 100 := by
    rw [h2]
    norm_num
  refine ⟨h1, h3, ?_⟩
  rw [h3]
  norm_num

/-- C10 as amended: after every successful load the effective clearance is not `0`; it is
strictly positive when the configured value is not negative, and it is the configured value,
hence negative, when that value is negative. -/
theorem clearance_invariant (self : ObstacleAvoidanceFeature) (config : XmlRpcValue)
    (hok : (loadParameters self config).1 = true) :
    (loadParameters self config).2.clearance_ ≠ 0 ∧
      (0 ≤ config.asDouble "collision_clearance" →
        0 < (loadParameters self config).2.clearance_) ∧
      (config.asDouble "collision_clearance" < 0 →
        (loadParameters self config).2.clearance_ = config.asDouble "collision_clearance") := by
  by_cases hm : config.hasMember "collision_clearance" = true
  · have hsome : ∃ v, config.members.lookup "collision_clearance" = some v := by
      simpa [XmlRpcValue.hasMember, Option.isSome_iff_exists] using hm
    obtain ⟨v, hv⟩ := hsome
    obtain ⟨_, h2⟩ := loadParameters_of_member self config v hv
    have hd : config.asDouble "collision_clearance" = v := by
      simp [XmlRpcValue.asDouble, hv]
    rw [h2, hd]
    by_cases h0 : v = 0
    · rw [if_pos h0]
      refine ⟨by norm_num [DEFAULT_CLEARANCE], fun _ => by norm_num [DEFAULT_CLEARANCE], ?_⟩
      intro hneg
      rw [h0] at hneg
      exact absurd hneg (lt_irrefl 0)
    · rw [if_neg h0]
      exact ⟨h0, fun hnn => lt_of_le_of_ne hnn (Ne.symm h0), fun _ => rfl⟩
  · have hf : config.hasMember "collision_clearance" = false := by simpa using hm
    have := (loadParameters_of_no_member self config hf).1
    rw [this] at hok
    exact absurd hok Bool.false_ne_true

/-- C10 as amended, at a concrete input: a configured clearance of `0`. -/
theorem clearance_invariant_witness :
    (loadParameters collisionScenario (configWithClearance 0)).1 = true ∧
    (loadParameters collisionScenario (configWithClearance 0)).2.clearance_ ≠ 0 ∧
    0 < (loadParameters collisionScenario (configWithClearance 0)).2.clearance_ :=
  have hok : (loadParameters collisionScenario (configWithClearance 0)).1 = true := by
    simp [loadParameters, XmlRpcValue.hasMember, configWithClearance, List.lookup]
  ⟨hok, (clearance_invariant collisionScenario (configWithClearance 0) hok).1,
    (clearance_invariant collisionScenario (configWithClearance 0) hok).2.1
      (by simp [XmlRpcValue.asDouble, configWithClearance, List.lookup])⟩


/-! ## Binding the planning scene -/

/-- C11 (detector check): whatever the feature held before the call, hence at every call,
`setPlanningScene` throws exactly when the active collision-detector name of the scene
differs from `"IndustrialFCL"`, and completes without error exactly when the name is
`"IndustrialFCL"`. -/
theorem setPlanningScene_throws_iff
    (baseSetPlanningScene : StompCostFeature → PlanningScene → StompCostFeature)
    (self : ObstacleAvoidanceFeature) (planning_scene : PlanningScene) :
    ((∃ message, setPlanningScene baseSetPlanningScene self planning_scene = .error message) ↔
        planning_scene.activeCollisionDetectorName ≠ "IndustrialFCL") ∧
      ((∃ bound, setPlanningScene baseSetPlanningScene self planning_scene = .ok bound) ↔
        planning_scene.activeCollisionDetectorName = "IndustrialFCL") := by
  unfold setPlanningScene
  by_cases h : planning_scene.activeCollisionDetectorName = "IndustrialFCL"
  · simp [h, DEFAULT_COLLISION_DETECTOR]
  · simp [h, DEFAULT_COLLISION_DETECTOR]

theorem setPlanningScene_examples :
    (∃ message, setPlanningScene baseStoreScene collisionScenario (sceneNamed "FCL") =
      .error message) ∧
    (∃ bound, setPlanningScene baseStoreScene collisionScenario (sceneNamed "IndustrialFCL") =
      .ok bound) := by
  constructor
  · simp [setPlanningScene, sceneNamed, DEFAULT_COLLISION_DETECTOR]
  · simp [setPlanningScene, sceneNamed, DEFAULT_COLLISION_DETECTOR]

/-! ## Output buffers -/

/-- C12 (idempotence): for a requested range that lies inside the trajectory, two calls with
the same feature, trajectory and range return, with the same feature values and the same
validity vector, whatever the output buffers (and the unused arguments) held at each call,
and also when the second call is handed the buffers that the first call filled. -/
theorem evaluation_idempotent (self : ObstacleAvoidanceFeature) (trajectory : StompTrajectory)
    (feature_values feature_values' : MatrixXd) (compute_gradients compute_gradients' : Bool)
    (gradients gradients' : List MatrixXd) (validities validities' : List Int)
    (thread_id thread_id' start_timestep num_time_steps : Int)
    (h0 : 0 ≤ start_timestep)
    (h1 : start_timestep + num_time_steps ≤ trajectory.num_time_steps_)
    (h2 : trajectory.num_time_steps_ ≤ trajectory.kinematic_states_.length) :
    ∃ out1 out2 out3,
      computeValuesAndGradients self trajectory feature_values compute_gradients gradients
        validities thread_id start_timestep num_time_steps = .ok out1 ∧
      computeValuesAndGradients self trajectory feature_values' compute_gradients' gradients'
        validities' thread_id' start_timestep num_time_steps = .ok out2 ∧
      computeValuesAndGradients self trajectory out1.feature_values compute_gradients
        out1.gradients out1.validities thread_id start_timestep num_time_steps = .ok out3 ∧
      out2.feature_values = out1.feature_values ∧ out2.validities = out1.validities ∧
      out3.feature_values = out1.feature_values ∧ out3.validities = out1.validities := by
  obtain ⟨s, hs, _⟩ := runSteps_ok self trajectory start_timestep num_time_steps h0 h1 h2
  exact ⟨_, _, _,
    computeValuesAndGradients_ok self trajectory feature_values compute_gradients gradients
      validities thread_id start_timestep num_time_steps s hs,
    computeValuesAndGradients_ok self trajectory feature_values' compute_gradients' gradients'
      validities' thread_id' start_timestep num_time_steps s hs,
    computeValuesAndGradients_ok self trajectory _ compute_gradients _ _ thread_id
      start_timestep num_time_steps s hs,
    rfl, rfl, rfl, rfl⟩

/-- C12, at a concrete input: the collision scenario evaluated with empty buffers and with
buffers full of other values. -/
theorem evaluation_idempotent_witness :
    ∃ out1 out2 out3,
      computeValuesAndGradients collisionScenario oneStepTrajectory (MatrixXd.Zero 0 0) false []
        [] 0 0 1 = .ok out1 ∧
      computeValuesAndGradients collisionScenario oneStepTrajectory
        { rows := 5, cols := 2, coeff := fun _ _ => 7 } true [MatrixXd.Zero 1 1] [0, 0, 1] 3
        0 1 = .ok out2 ∧
      computeValuesAndGradients collisionScenario oneStepTrajectory out1.feature_values false
        out1.gradients out1.validities 0 0 1 = .ok out3 ∧
      out2.feature_values = out1.feature_values ∧ out2.validities = out1.validities ∧
      out3.feature_values = out1.feature_values ∧ out3.validities = out1.validities :=
  evaluation_idempotent collisionScenario oneStepTrajectory (MatrixXd.Zero 0 0)
    { rows := 5, cols := 2, coeff := fun _ _ => 7 } false true [] [MatrixXd.Zero 1 1] []
    [0, 0, 1] 0 3 0 1 (by decide) (by decide) (by decide)

theorem scaledNonFinite_of_ne_zero (x d : ℚ) (hd : d ≠ 0) : scaledNonFinite x d = none := by
  simp [scaledNonFinite, hd]

theorem outputs_independent_of_buffers (self : ObstacleAvoidanceFeature)
    (trajectory : StompTrajectory) (feature_values feature_values' : MatrixXd)
    (compute_gradients compute_gradients' : Bool) (gradients : List MatrixXd)
    (validities validities' : List Int)
    (thread_id thread_id' start_timestep num_time_steps : Int) :
    computeValuesAndGradients self trajectory feature_values compute_gradients gradients
        validities thread_id start_timestep num_time_steps =
      computeValuesAndGradients self trajectory feature_values' compute_gradients' gradients
        validities' thread_id' start_timestep num_time_steps := rfl

/-- C13 as stated fails: clearance `-0.5`, which `loadParameters` accepts, and a world contact
of depth `0.5` at step 1, the only requested step of a three-step trajectory. The divisor
`max_depth + clearance` is `0`, the factor of line 178 is infinite, and steps 0 and 2, which
are outside the requested range, do not have the feature value `0`: their entries are NaN. -/
theorem outside_range_value_not_zero :
    ∃ s out,
      runSteps negativeClearanceScenario threeStepTrajectory 1 1 = .ok s ∧
      computeValuesAndGradients negativeClearanceScenario threeStepTrajectory
        (MatrixXd.Zero 0 0) false [] [] 0 1 1 = .ok out ∧
      s.max_depth + negativeClearanceScenario.clearance_ = 0 ∧
      out.non_finite 0 0 = some NonFinite.nan ∧ out.non_finite 2 0 = some NonFinite.nan ∧
      ¬ out.hasValue 0 0 0 ∧ ¬ out.hasValue 2 0 0 := by
  have hs : ∃ s, runSteps negativeClearanceScenario threeStepTrajectory 1 1 = .ok s ∧
      s.max_depth = 1 / 2 ∧ s.feature_values.coeff 0 0 = 0 ∧
      s.feature_values.coeff 2 0 = 0 := by
    simp [runSteps, stepLoop, stepBody, vectorGet, threeStepTrajectory, evalResults, evalResult,
      worldQuery, selfQuery, negativeClearanceScenario, featureOn, worldInCollision,
      robotAtDistance, makeRequest, CollisionResult.init, MatrixXd.addAt, MatrixXd.Zero,
      getNumValues, NUM_FEATURE_VALUES, vectorSet, scanContactMap, scanContactArray]
  obtain ⟨s, hrun, hmd, hf0, hf2⟩ := hs
  have hdiv : s.max_depth + negativeClearanceScenario.clearance_ = 0 := by
    rw [hmd]
    norm_num [negativeClearanceScenario, featureOn]
  have hn0 : scaledNonFinite (s.feature_values.coeff 0 0)
      (s.max_depth + negativeClearanceScenario.clearance_) = some NonFinite.nan := by
    rw [hdiv, hf0]
    simp [scaledNonFinite]
  have hn2 : scaledNonFinite (s.feature_values.coeff 2 0)
      (s.max_depth + negativeClearanceScenario.clearance_) = some NonFinite.nan := by
    rw [hdiv, hf2]
    simp [scaledNonFinite]
  refine ⟨s, _, hrun,
    computeValuesAndGradients_ok negativeClearanceScenario threeStepTrajectory
      (MatrixXd.Zero 0 0) false [] [] 0 1 1 s hrun, hdiv, hn0, hn2, ?_, ?_⟩
  · intro h
    have h1 : scaledNonFinite (s.feature_values.coeff 0 0)
        (s.max_depth + negativeClearanceScenario.clearance_) = none := h.1
    rw [hn0] at h1
    exact absurd h1 (by decide)
  · intro h
    have h1 : scaledNonFinite (s.feature_values.coeff 2 0)
        (s.max_depth + negativeClearanceScenario.clearance_) = none := h.1
    rw [hn2] at h1
    exact absurd h1 (by decide)

/-- C13 as amended (shape and frame): for a requested range that lies inside the trajectory,
the call returns a feature matrix with one row per time step of the trajectory and exactly
one column (`getNumValues = 1`) and a validity vector with one entry per time step; every
step of the trajectory outside the requested range has the validity `1`, and it has the
feature value `0` when `MaxDepth + clearance` is not `0`, which is so for every clearance
above `0`; when `MaxDepth + clearance` is `0` its entry is NaN. -/
theorem output_shape_and_frame (self : ObstacleAvoidanceFeature)
    (trajectory : StompTrajectory) (feature_values : MatrixXd) (compute_gradients : Bool)
    (gradients : List MatrixXd) (validities : List Int)
    (thread_id start_timestep num_time_steps : Int)
    (h0 : 0 ≤ start_timestep)
    (h1 : start_timestep + num_time_steps ≤ trajectory.num_time_steps_)
    (h2 : trajectory.num_time_steps_ ≤ trajectory.kinematic_states_.length) :
    ∃ s out,
      runSteps self trajectory start_timestep num_time_steps = .ok s ∧
      computeValuesAndGradients self trajectory feature_values compute_gradients gradients
        validities thread_id start_timestep num_time_steps = .ok out ∧
      out.feature_values.rows = trajectory.num_time_steps_ ∧
      out.feature_values.cols = 1 ∧ getNumValues = 1 ∧
      out.validities.length = trajectory.num_time_steps_ ∧
      ∀ i : Nat, i < trajectory.num_time_steps_ →
        ¬ (start_timestep ≤ (i : Int) ∧ (i : Int) < start_timestep + num_time_steps) →
        out.validities[i]? = some 1 ∧
        (s.max_depth + self.clearance_ ≠ 0 → out.hasValue i 0 0) ∧
        (0 < self.clearance_ → out.hasValue i 0 0) ∧
        (s.max_depth + self.clearance_ = 0 → out.non_finite i 0 = some NonFinite.nan) := by
  obtain ⟨s, hs, hinv⟩ := runSteps_ok self trajectory start_timestep num_time_steps h0 h1 h2
  refine ⟨s, _, hs, computeValuesAndGradients_ok self trajectory feature_values
    compute_gradients gradients validities thread_id start_timestep num_time_steps s hs,
    hinv.rows, hinv.cols, rfl, hinv.len, ?_⟩
  intro i hi hout
  have hnot : ¬ (start_timestep.toNat ≤ i ∧ i < start_timestep.toNat + num_time_steps.toNat) := by
    intro h
    apply hout
    omega
  have hraw : s.feature_values.coeff i 0 = 0 := by
    rw [hinv.coeff i 0, if_neg (fun h => hnot ⟨h.1, h.2.1⟩)]
  have hfin : s.max_depth + self.clearance_ ≠ 0 →
      (scaledNonFinite (s.feature_values.coeff i 0) (s.max_depth + self.clearance_) = none ∧
        s.feature_values.coeff i 0 * (1 / (s.max_depth + self.clearance_)) = 0) := by
    intro hd
    exact ⟨scaledNonFinite_of_ne_zero _ _ hd, by rw [hraw, zero_mul]⟩
  refine ⟨?_, hfin, ?_, ?_⟩
  · show s.validities[i]? = some 1
    rw [hinv.valid i hi, if_neg (fun h => hnot ⟨h.1, h.2.1⟩)]
  · intro hpos
    have hnn : 0 ≤ s.max_depth := by
      rw [hinv.depth]
      exact le_runningMax 0 _
    exact hfin (ne_of_gt (add_pos_of_nonneg_of_pos hnn hpos))
  · intro hd
    show scaledNonFinite (s.feature_values.coeff i 0) (s.max_depth + self.clearance_) =
      some NonFinite.nan
    rw [hd, hraw]
    simp [scaledNonFinite]

/-- C13 as amended, at a concrete input: steps 1 and 2 of a three-step trajectory are
requested with clearance 0.01, step 0 is outside and has the value `0` and the validity
`1`. -/
theorem output_shape_and_frame_witness :
    ∃ out,
      computeValuesAndGradients collisionScenario threeStepTrajectory (MatrixXd.Zero 0 0) false
        [] [] 0 1 2 = .ok out ∧
      out.feature_values.rows = 3 ∧ out.feature_values.cols = 1 ∧
      out.validities.length = 3 ∧
      out.hasValue 0 0 0 ∧ out.validities[0]? = some 1 := by
  obtain ⟨_, out, _, ho, hr, hc, _, hl, hf⟩ :=
    output_shape_and_frame collisionScenario threeStepTrajectory (MatrixXd.Zero 0 0) false [] []
      0 1 2 (by decide) (by decide) (by decide)
  obtain ⟨hv, _, hpos, _⟩ := hf 0 (by decide) (by decide)
  exact ⟨out, ho, hr, hc, hl, hpos (by norm_num [collisionScenario, featureOn]), hv⟩

/-! ## Lemmas on the potential -/

theorem lastDepth_nonneg (contacts : ContactMap) : 0 ≤ lastDepth contacts := by
  unfold lastDepth
  cases (allContacts contacts).getLast? with
  | none => exact le_refl 0
  | some c => exact abs_nonneg _

theorem lastDepth_zero_or_mem (result : CollisionResult) (hcol : result.collision = true) :
    lastDepth result.contacts = 0 ∨ lastDepth result.contacts ∈ scannedDepths result := by
  unfold lastDepth
  cases hlast : (allContacts result.contacts).getLast? with
  | none => left; rfl
  | some c =>
    right
    exact (mem_scannedDepths _ _).mpr ⟨hcol, c, List.mem_of_mem_getLast? hlast, rfl⟩

theorem potentialOf_nonneg (clearance : ℚ) (hpos : 0 < clearance) (result : CollisionResult) :
    0 ≤ potentialOf clearance result := by
  unfold potentialOf
  split_ifs with h1 h2
  · exact add_nonneg (lastDepth_nonneg _) hpos.le
  · exact (sub_pos.mpr h2.2).le
  · exact le_refl 0

theorem potentialOf_eq_zero_iff (clearance : ℚ) (hpos : 0 < clearance)
    (result : CollisionResult) :
    potentialOf clearance result = 0 ↔
      result.collision = false ∧ (clearance ≤ result.distance ∨ result.distance ≤ 0) := by
  unfold potentialOf
  split_ifs with h1 h2
  · have : 0 < lastDepth result.contacts + clearance :=
      add_pos_of_nonneg_of_pos (lastDepth_nonneg _) hpos
    constructor
    · intro h; rw [h] at this; exact absurd this (lt_irrefl 0)
    · intro h; rw [h1] at h; exact absurd h.1 (by decide)
  · have : 0 < clearance - result.distance := sub_pos.mpr h2.2
    constructor
    · intro h; rw [h] at this; exact absurd this (lt_irrefl 0)
    · rintro ⟨_, h | h⟩
      · exact absurd h2.2 (not_lt.mpr h)
      · exact absurd h2.1 (not_lt.mpr h)
  · constructor
    · intro _
      refine ⟨by simpa using h1, ?_⟩
      by_cases hd : 0 < result.distance
      · left
        exact not_lt.mp (fun hlt => h2 ⟨hd, hlt⟩)
      · right
        exact not_lt.mp hd
    · intro _; rfl

theorem potentialOf_le (clearance : ℚ) (hpos : 0 < clearance) (result : CollisionResult)
    (m : ℚ) (hm : 0 ≤ m) (hlast : result.collision = true → lastDepth result.contacts ≤ m) :
    potentialOf clearance result ≤ m + clearance := by
  unfold potentialOf
  split_ifs with h1 h2
  · exact add_le_add_right (hlast h1) _
  · have : clearance - result.distance ≤ clearance := sub_le_self _ h2.1.le
    exact le_trans this (le_add_of_nonneg_left hm)
  · exact add_nonneg hm hpos.le

theorem range_potentials_bounded (self : ObstacleAvoidanceFeature)
    (trajectory : StompTrajectory) (start_timestep : Int) (k j : Nat) (hj : j < k)
    (hpos : 0 < self.clearance_) :
    (0 ≤ potentialOf self.clearance_ (resultsAfter self trajectory start_timestep (j + 1)).1 ∧
      potentialOf self.clearance_ (resultsAfter self trajectory start_timestep (j + 1)).1 ≤
        runningMax 0 (depthsScanned self trajectory start_timestep k) + self.clearance_) ∧
    (0 ≤ potentialOf self.clearance_ (resultsAfter self trajectory start_timestep (j + 1)).2 ∧
      potentialOf self.clearance_ (resultsAfter self trajectory start_timestep (j + 1)).2 ≤
        runningMax 0 (depthsScanned self trajectory start_timestep k) + self.clearance_) := by
  have hm : (0 : ℚ) ≤ runningMax 0 (depthsScanned self trajectory start_timestep k) :=
    le_runningMax 0 _
  refine ⟨⟨potentialOf_nonneg _ hpos _, potentialOf_le _ hpos _ _ hm ?_⟩,
    ⟨potentialOf_nonneg _ hpos _, potentialOf_le _ hpos _ _ hm ?_⟩⟩
  · intro hcol
    rcases lastDepth_zero_or_mem _ hcol with h | h
    · rw [h]; exact hm
    · exact mem_le_runningMax 0 _ _ ((mem_depthsScanned _ _ _ _ _).mpr ⟨j, hj, Or.inl h⟩)
  · intro hcol
    rcases lastDepth_zero_or_mem _ hcol with h | h
    · rw [h]; exact hm
    · exact mem_le_runningMax 0 _ _ ((mem_depthsScanned _ _ _ _ _).mpr ⟨j, hj, Or.inr h⟩)


theorem potentialOf_zero_of_free (clearance : ℚ) (result : CollisionResult) :
    (result.collision = false ∧ (clearance ≤ result.distance ∨ result.distance ≤ 0)) →
      potentialOf clearance result = 0 := by
  rintro ⟨hcol, hd⟩
  unfold potentialOf
  rw [if_neg (by simp [hcol])]
  rcases hd with hd | hd
  · rw [if_neg (fun h => absurd h.2 (not_lt.mpr hd))]
  · rw [if_neg (fun h => absurd h.1 (not_lt.mpr hd))]

/-! ## The sentinel distance of the world check -/

/-- C14 (sentinel distance): for a requested range that lies inside the trajectory, the loop
completes and, at every step `t` of the range, the first as well as the later ones, the
result object handed to the world query has its distance at the largest double; hence, when
the result of the query signals no collision and has the distance it was handed, the world
check adds nothing to the feature value of the step, for every clearance that does not exceed
the largest double: the accumulated value is the potential of the self check alone. -/
theorem world_distance_sentinel (self : ObstacleAvoidanceFeature)
    (trajectory : StompTrajectory) (start_timestep num_time_steps : Int)
    (h0 : 0 ≤ start_timestep)
    (h1 : start_timestep + num_time_steps ≤ trajectory.num_time_steps_)
    (h2 : trajectory.num_time_steps_ ≤ trajectory.kinematic_states_.length) :
    ∃ s, runSteps self trajectory start_timestep num_time_steps = .ok s ∧
      ∀ t : Int, start_timestep ≤ t → t < start_timestep + num_time_steps →
        (handedWorldResult self trajectory start_timestep t).distance = DBL_MAX ∧
        worldResultAt self trajectory start_timestep t =
          self.collision_world_.checkRobotCollision (makeRequest self trajectory)
            (handedWorldResult self trajectory start_timestep t) self.collision_robot_
            (stateAt trajectory t) self.planning_scene_.allowedCollisionMatrix ∧
        ((worldResultAt self trajectory start_timestep t).collision = false →
          (worldResultAt self trajectory start_timestep t).distance =
            (handedWorldResult self trajectory start_timestep t).distance →
          self.clearance_ ≤ DBL_MAX →
          potentialOf self.clearance_ (worldResultAt self trajectory start_timestep t) = 0 ∧
          s.feature_values.coeff t.toNat 0 =
            potentialOf self.clearance_ (selfResultAt self trajectory start_timestep t)) := by
  obtain ⟨s, hs, hinv⟩ := runSteps_ok self trajectory start_timestep num_time_steps h0 h1 h2
  refine ⟨s, hs, ?_⟩
  intro t ht1 ht2
  have hback : start_timestep + ((t - start_timestep).toNat : Int) = t := by omega
  refine ⟨rfl, ?_, ?_⟩
  · show (resultsAfter self trajectory start_timestep ((t - start_timestep).toNat + 1)).1 = _
    simp only [resultsAfter, worldQuery, handedWorldResult, hback]
  · intro hcol hdist hle
    have hzero : potentialOf self.clearance_
        (worldResultAt self trajectory start_timestep t) = 0 := by
      apply potentialOf_zero_of_free
      exact ⟨hcol, Or.inl (by rw [hdist]; exact hle)⟩
    refine ⟨hzero, ?_⟩
    have hin : start_timestep.toNat ≤ t.toNat ∧
        t.toNat < start_timestep.toNat + num_time_steps.toNat ∧ (0 : Nat) = 0 := by omega
    have hidx : t.toNat - start_timestep.toNat + 1 = (t - start_timestep).toNat + 1 := by omega
    have hc := hinv.coeff t.toNat 0
    rw [if_pos hin, hidx] at hc
    have hc' : s.feature_values.coeff t.toNat 0 =
        potentialOf self.clearance_ (worldResultAt self trajectory start_timestep t) +
          potentialOf self.clearance_ (selfResultAt self trajectory start_timestep t) := hc
    rw [hc', hzero, zero_add]


/-- C14, at a concrete input: a world check that writes nothing, at the last of three steps;
the distance read is the largest double and the accumulated value of the step is `0`. -/
theorem world_distance_sentinel_witness :
    ∃ s, runSteps silentWorldScenario threeStepTrajectory 0 3 = .ok s ∧
      (handedWorldResult silentWorldScenario threeStepTrajectory 0 2).distance = DBL_MAX ∧
      (worldResultAt silentWorldScenario threeStepTrajectory 0 2).distance = DBL_MAX ∧
      potentialOf silentWorldScenario.clearance_
        (worldResultAt silentWorldScenario threeStepTrajectory 0 2) = 0 ∧
      s.feature_values.coeff 2 0 = 0 := by
  obtain ⟨s, hs, h⟩ := world_distance_sentinel silentWorldScenario threeStepTrajectory 0 3
    (by decide) (by decide) (by decide)
  obtain ⟨hd, hw, himp⟩ := h 2 (by decide) (by decide)
  have hcol : (worldResultAt silentWorldScenario threeStepTrajectory 0 2).collision = false := by
    simp [worldResultAt, resultsAfter, worldQuery, silentWorldScenario, featureOn, worldSilent,
      CollisionResult.init]
  have hdist : (worldResultAt silentWorldScenario threeStepTrajectory 0 2).distance =
      (handedWorldResult silentWorldScenario threeStepTrajectory 0 2).distance := by
    rw [hw]
    simp [silentWorldScenario, featureOn, worldSilent]
  have hle : silentWorldScenario.clearance_ ≤ DBL_MAX := by
    norm_num [silentWorldScenario, featureOn, DBL_MAX]
  obtain ⟨hz, hc⟩ := himp hcol hdist hle
  refine ⟨s, hs, hd, by rw [hdist, hd], hz, ?_⟩
  have hself : potentialOf silentWorldScenario.clearance_
      (selfResultAt silentWorldScenario threeStepTrajectory 0 2) = 0 := by
    apply potentialOf_zero_of_free
    simp [selfResultAt, resultsAfter, selfQuery, silentWorldScenario, featureOn,
      robotAtDistance, CollisionResult.init]
    norm_num
  have hc2 : s.feature_values.coeff 2 0 =
      potentialOf silentWorldScenario.clearance_
        (selfResultAt silentWorldScenario threeStepTrajectory 0 2) := hc
  rw [hc2, hself]


/-! ## Sign and size of the tracked depth and of the cost -/

theorem evalResult_max_depth_le (clearance : ℚ) (t : Int) (a a' : Accum)
    (result : CollisionResult) (h : evalResult clearance t a result = .ok a') :
    a.max_depth ≤ a'.max_depth := by
  unfold evalResult at h
  by_cases hcol : result.collision = true
  · rw [if_pos hcol] at h
    dsimp only at h
    cases hv : vectorSet a.validities t 0 with
    | error e => rw [hv] at h; simp at h
    | ok v =>
      rw [hv] at h
      dsimp only at h
      cases hf : a.feature_values.addAt t 0
          ((scanContactMap result.contacts (0, a.max_depth)).1 + clearance) with
      | error e => rw [hf] at h; simp at h
      | ok m =>
        rw [hf] at h
        simp only [Except.ok.injEq] at h
        subst h
        show a.max_depth ≤ (scanContactMap result.contacts (0, a.max_depth)).2
        rw [scanContactMap_snd]
        exact le_runningMax _ _
  · rw [if_neg hcol] at h
    dsimp only at h
    cases hf : a.feature_values.addAt t 0
        (if result.distance > 0 then
          if result.distance < clearance then clearance - result.distance else 0
        else 0) with
    | error e => rw [hf] at h; simp at h
    | ok m =>
      rw [hf] at h
      simp only [Except.ok.injEq] at h
      subst h
      exact le_refl _

theorem evalResults_max_depth_le (clearance : ℚ) (t : Int) (results : List CollisionResult) :
    ∀ a a' : Accum, evalResults clearance t a results = .ok a' →
      a.max_depth ≤ a'.max_depth := by
  induction results with
  | nil =>
    intro a a' h
    simp only [evalResults, Except.ok.injEq] at h
    subst h
    exact le_refl _
  | cons r rest ih =>
    intro a a' h
    simp only [evalResults] at h
    split at h
    · simp at h
    · rename_i a1 h1
      exact le_trans (evalResult_max_depth_le clearance t a a1 r h1) (ih a1 a' h)

theorem stepBody_max_depth_le (self : ObstacleAvoidanceFeature) (trajectory : StompTrajectory)
    (request : CollisionRequest) (t : Int) (s s' : LoopState)
    (h : stepBody self trajectory request t s = .ok s') : s.max_depth ≤ s'.max_depth := by
  unfold stepBody at h
  cases hg : vectorGet trajectory.kinematic_states_ t with
  | error e => rw [hg] at h; simp at h
  | ok state0 =>
    rw [hg] at h
    dsimp only at h
    cases he : evalResults self.clearance_ t
        { feature_values := s.feature_values, validities := s.validities,
          max_depth := s.max_depth }
        [worldQuery self request s.result_world_collision state0,
          selfQuery self request s.result_robot_collision state0] with
    | error e => rw [he] at h; simp at h
    | ok a =>
      rw [he] at h
      simp only [Except.ok.injEq] at h
      subst h
      exact evalResults_max_depth_le _ _ _ _ _ he

theorem stepLoop_max_depth_le (self : ObstacleAvoidanceFeature) (trajectory : StompTrajectory)
    (request : CollisionRequest) (bound : Int) (fuel : Nat) :
    ∀ (t : Int) (s s' : LoopState),
      stepLoop self trajectory request bound fuel t s = .ok s' → s.max_depth ≤ s'.max_depth := by
  induction fuel with
  | zero =>
    intro t s s' h
    simp only [stepLoop] at h
    split at h
    · simp at h
    · simp only [Except.ok.injEq] at h
      subst h
      exact le_refl _
  | succ fuel ih =>
    intro t s s' h
    simp only [stepLoop] at h
    split at h
    · split at h
      · simp at h
      · rename_i s1 h1
        exact le_trans (stepBody_max_depth_le _ _ _ _ _ _ h1) (ih _ _ _ h)
    · simp only [Except.ok.injEq] at h
      subst h
      exact le_refl _

/-- C16 (the divisor): for every clearance above `0` and every call, whatever the trajectory
and the range, when the step loop completes `max_depth` is not negative, so the divisor
`max_depth + clearance` is strictly positive, it is not `0`, and the factor
`1 / (max_depth + clearance)` is a positive number; and the step loop does complete for
every requested range that lies inside the trajectory. -/
theorem divisor_positive (self : ObstacleAvoidanceFeature) (trajectory : StompTrajectory)
    (start_timestep num_time_steps : Int) (hpos : 0 < self.clearance_) :
    (∀ s : LoopState, runSteps self trajectory start_timestep num_time_steps = .ok s →
      0 ≤ s.max_depth ∧ 0 < s.max_depth + self.clearance_ ∧
      s.max_depth + self.clearance_ ≠ 0 ∧ 0 < 1 / (s.max_depth + self.clearance_)) ∧
    (0 ≤ start_timestep →
      start_timestep + num_time_steps ≤ trajectory.num_time_steps_ →
      trajectory.num_time_steps_ ≤ trajectory.kinematic_states_.length →
      ∃ s, runSteps self trajectory start_timestep num_time_steps = .ok s) := by
  constructor
  · intro s hs
    have hnn : 0 ≤ s.max_depth :=
      stepLoop_max_depth_le self trajectory _ _ _ _ _ s hs
    have hd : 0 < s.max_depth + self.clearance_ := add_pos_of_nonneg_of_pos hnn hpos
    exact ⟨hnn, hd, ne_of_gt hd, one_div_pos.mpr hd⟩
  · intro h0 h1 h2
    obtain ⟨s, hs, _⟩ := runSteps_ok self trajectory start_timestep num_time_steps h0 h1 h2
    exact ⟨s, hs⟩

/-- C16, at a concrete input: the collision scenario on one step; the loop completes and the
divisor is positive. -/
theorem divisor_positive_witness :
    0 < collisionScenario.clearance_ ∧
    ∃ s, runSteps collisionScenario oneStepTrajectory 0 1 = .ok s ∧
      0 ≤ s.max_depth ∧ 0 < s.max_depth + collisionScenario.clearance_ ∧
      s.max_depth + collisionScenario.clearance_ ≠ 0 ∧
      0 < 1 / (s.max_depth + collisionScenario.clearance_) := by
  have hpos : 0 < collisionScenario.clearance_ := by
    norm_num [collisionScenario, featureOn]
  obtain ⟨s, hs⟩ := (divisor_positive collisionScenario oneStepTrajectory 0 1 hpos).2
    (by decide) (by decide) (by decide)
  exact ⟨hpos, s, hs, (divisor_positive collisionScenario oneStepTrajectory 0 1 hpos).1 s hs⟩

/-- C15 (bounded cost): for every clearance above `0` and every requested range that lies
inside the trajectory, the call returns; at every step of the range each of the two sub-check
potentials is at least `0` and at most `MaxDepth + clearance`; and every entry of the returned
feature matrix lies in the closed interval `[0, 2]`. -/
theorem feature_values_bounded (self : ObstacleAvoidanceFeature)
    (trajectory : StompTrajectory) (feature_values : MatrixXd) (compute_gradients : Bool)
    (gradients : List MatrixXd) (validities : List Int)
    (thread_id start_timestep num_time_steps : Int)
    (h0 : 0 ≤ start_timestep)
    (h1 : start_timestep + num_time_steps ≤ trajectory.num_time_steps_)
    (h2 : trajectory.num_time_steps_ ≤ trajectory.kinematic_states_.length)
    (hpos : 0 < self.clearance_) :
    ∃ s out,
      runSteps self trajectory start_timestep num_time_steps = .ok s ∧
      computeValuesAndGradients self trajectory feature_values compute_gradients gradients
        validities thread_id start_timestep num_time_steps = .ok out ∧
      (∀ t : Int, start_timestep ≤ t → t < start_timestep + num_time_steps →
        (0 ≤ potentialOf self.clearance_ (worldResultAt self trajectory start_timestep t) ∧
          potentialOf self.clearance_ (worldResultAt self trajectory start_timestep t) ≤
            s.max_depth + self.clearance_) ∧
        (0 ≤ potentialOf self.clearance_ (selfResultAt self trajectory start_timestep t) ∧
          potentialOf self.clearance_ (selfResultAt self trajectory start_timestep t) ≤
            s.max_depth + self.clearance_)) ∧
      ∀ i j : Nat, 0 ≤ out.feature_values.coeff i j ∧ out.feature_values.coeff i j ≤ 2 := by
  obtain ⟨s, hs, hinv⟩ := runSteps_ok self trajectory start_timestep num_time_steps h0 h1 h2
  have hd : 0 < s.max_depth + self.clearance_ := by
    rw [hinv.depth]
    exact add_pos_of_nonneg_of_pos (le_runningMax 0 _) hpos
  refine ⟨s, _, hs, computeValuesAndGradients_ok self trajectory feature_values
    compute_gradients gradients validities thread_id start_timestep num_time_steps s hs, ?_, ?_⟩
  · intro t ht1 ht2
    have hb := range_potentials_bounded self trajectory start_timestep num_time_steps.toNat
      (t - start_timestep).toNat (by omega) hpos
    rw [← hinv.depth] at hb
    exact hb
  · intro i j
    show 0 ≤ s.feature_values.coeff i j * (1 / (s.max_depth + self.clearance_)) ∧
      s.feature_values.coeff i j * (1 / (s.max_depth + self.clearance_)) ≤ 2
    rw [hinv.coeff i j, mul_one_div]
    by_cases hin : start_timestep.toNat ≤ i ∧
        i < start_timestep.toNat + num_time_steps.toNat ∧ j = 0
    · rw [if_pos hin]
      have hb := range_potentials_bounded self trajectory start_timestep num_time_steps.toNat
        (i - start_timestep.toNat) (by omega) hpos
      rw [← hinv.depth] at hb
      obtain ⟨⟨hw0, hw1⟩, ⟨hr0, hr1⟩⟩ := hb
      constructor
      · exact div_nonneg (add_nonneg hw0 hr0) hd.le
      · rw [div_le_iff₀ hd]
        linarith
    · rw [if_neg hin, zero_div]
      exact ⟨le_refl 0, by norm_num⟩

/-- C15, at a concrete input: the double-collision scenario on one step, where the value is
`(0.03 + 0.02) / 0.03`. -/
theorem feature_values_bounded_witness :
    0 < doubleCollisionScenario.clearance_ ∧
    ∃ out,
      computeValuesAndGradients doubleCollisionScenario oneStepTrajectory (MatrixXd.Zero 0 0)
        false [] [] 0 0 1 = .ok out ∧
      ∀ i j : Nat, 0 ≤ out.feature_values.coeff i j ∧ out.feature_values.coeff i j ≤ 2 := by
  have hpos : 0 < doubleCollisionScenario.clearance_ := by
    norm_num [doubleCollisionScenario, featureOn]
  obtain ⟨_, out, _, ho, _, hb⟩ :=
    feature_values_bounded doubleCollisionScenario oneStepTrajectory (MatrixXd.Zero 0 0) false
      [] [] 0 0 1 (by decide) (by decide) (by decide) hpos
  exact ⟨hpos, out, ho, hb⟩

/-- C17 (zero cost): for every clearance above `0`, every requested range that lies inside
the trajectory and every step `t` of the range, the returned feature value of `t` is `0`
exactly when neither sub-check signals a collision and each of the two distances is
`>= clearance` or `<= 0`; and a step whose validity flag is `0` has a strictly positive
feature value. -/
theorem zero_cost_iff (self : ObstacleAvoidanceFeature)
    (trajectory : StompTrajectory) (feature_values : MatrixXd) (compute_gradients : Bool)
    (gradients : List MatrixXd) (validities : List Int)
    (thread_id start_timestep num_time_steps : Int)
    (h0 : 0 ≤ start_timestep)
    (h1 : start_timestep + num_time_steps ≤ trajectory.num_time_steps_)
    (h2 : trajectory.num_time_steps_ ≤ trajectory.kinematic_states_.length)
    (hpos : 0 < self.clearance_) :
    ∃ out,
      computeValuesAndGradients self trajectory feature_values compute_gradients gradients
        validities thread_id start_timestep num_time_steps = .ok out ∧
      ∀ t : Int, start_timestep ≤ t → t < start_timestep + num_time_steps →
        (out.feature_values.coeff t.toNat 0 = 0 ↔
          ((worldResultAt self trajectory start_timestep t).collision = false ∧
            (selfResultAt self trajectory start_timestep t).collision = false ∧
            (self.clearance_ ≤ (worldResultAt self trajectory start_timestep t).distance ∨
              (worldResultAt self trajectory start_timestep t).distance ≤ 0) ∧
            (self.clearance_ ≤ (selfResultAt self trajectory start_timestep t).distance ∨
              (selfResultAt self trajectory start_timestep t).distance ≤ 0))) ∧
        (out.validities[t.toNat]? = some 0 → 0 < out.feature_values.coeff t.toNat 0) := by
  obtain ⟨s, hs, hinv⟩ := runSteps_ok self trajectory start_timestep num_time_steps h0 h1 h2
  have hd : 0 < s.max_depth + self.clearance_ := by
    rw [hinv.depth]
    exact add_pos_of_nonneg_of_pos (le_runningMax 0 _) hpos
  refine ⟨_, computeValuesAndGradients_ok self trajectory feature_values
    compute_gradients gradients validities thread_id start_timestep num_time_steps s hs, ?_⟩
  intro t ht1 ht2
  have hin : start_timestep.toNat ≤ t.toNat ∧
      t.toNat < start_timestep.toNat + num_time_steps.toNat ∧ (0 : Nat) = 0 := by omega
  have hidx : t.toNat - start_timestep.toNat + 1 = (t - start_timestep).toNat + 1 := by omega
  have hc := hinv.coeff t.toNat 0
  rw [if_pos hin, hidx] at hc
  have hc' : s.feature_values.coeff t.toNat 0 =
      potentialOf self.clearance_ (worldResultAt self trajectory start_timestep t) +
        potentialOf self.clearance_ (selfResultAt self trajectory start_timestep t) := hc
  have hv := hinv.valid t.toNat (by omega)
  rw [hidx] at hv
  have hv' : s.validities[t.toNat]? = some
      (if start_timestep.toNat ≤ t.toNat ∧
          t.toNat < start_timestep.toNat + num_time_steps.toNat ∧
          ((worldResultAt self trajectory start_timestep t).collision = true ∨
            (selfResultAt self trajectory start_timestep t).collision = true)
        then 0 else 1) := hv
  have hw0 := potentialOf_nonneg self.clearance_ hpos
    (worldResultAt self trajectory start_timestep t)
  have hr0 := potentialOf_nonneg self.clearance_ hpos
    (selfResultAt self trajectory start_timestep t)
  constructor
  · show s.feature_values.coeff t.toNat 0 * (1 / (s.max_depth + self.clearance_)) = 0 ↔ _
    rw [hc', mul_one_div, div_eq_zero_iff, add_eq_zero_iff_of_nonneg hw0 hr0,
      potentialOf_eq_zero_iff _ hpos, potentialOf_eq_zero_iff _ hpos]
    constructor
    · rintro (⟨⟨a, b⟩, ⟨c, d⟩⟩ | h)
      · exact ⟨a, c, b, d⟩
      · exact absurd h (ne_of_gt hd)
    · rintro ⟨a, c, b, d⟩
      exact Or.inl ⟨⟨a, b⟩, ⟨c, d⟩⟩
  · show s.validities[t.toNat]? = some 0 →
      0 < s.feature_values.coeff t.toNat 0 * (1 / (s.max_depth + self.clearance_))
    intro hflag
    rw [hv'] at hflag
    have hcoll : (worldResultAt self trajectory start_timestep t).collision = true ∨
        (selfResultAt self trajectory start_timestep t).collision = true := by
      by_contra hno
      rw [if_neg (fun h => hno h.2.2)] at hflag
      simp at hflag
    have hsum : 0 < potentialOf self.clearance_
          (worldResultAt self trajectory start_timestep t) +
        potentialOf self.clearance_ (selfResultAt self trajectory start_timestep t) := by
      rcases hcoll with hcw | hcr
      · have hne : potentialOf self.clearance_
            (worldResultAt self trajectory start_timestep t) ≠ 0 := by
          intro hz
          have := ((potentialOf_eq_zero_iff _ hpos _).mp hz).1
          rw [hcw] at this
          exact absurd this (by decide)
        exact add_pos_of_pos_of_nonneg (lt_of_le_of_ne hw0 (Ne.symm hne)) hr0
      · have hne : potentialOf self.clearance_
            (selfResultAt self trajectory start_timestep t) ≠ 0 := by
          intro hz
          have := ((potentialOf_eq_zero_iff _ hpos _).mp hz).1
          rw [hcr] at this
          exact absurd this (by decide)
        exact add_pos_of_nonneg_of_pos hw0 (lt_of_le_of_ne hr0 (Ne.symm hne))
    rw [hc', mul_one_div]
    exact div_pos hsum hd


/-- C17, at a concrete input: a world check that writes nothing and a self check at distance
0.2, clearance 0.01; both distances are at least the clearance and the value is `0`. -/
theorem zero_cost_iff_witness :
    0 < silentWorldScenario.clearance_ ∧
    ∃ out,
      computeValuesAndGradients silentWorldScenario oneStepTrajectory (MatrixXd.Zero 0 0) false
        [] [] 0 0 1 = .ok out ∧
      out.feature_values.coeff 0 0 = 0 := by
  have hpos : 0 < silentWorldScenario.clearance_ := by
    norm_num [silentWorldScenario, featureOn]
  obtain ⟨out, ho, h⟩ :=
    zero_cost_iff silentWorldScenario oneStepTrajectory (MatrixXd.Zero 0 0) false [] [] 0 0 1
      (by decide) (by decide) (by decide) hpos
  refine ⟨hpos, out, ho, ((h 0 (by decide) (by decide)).1).mpr ?_⟩
  simp [worldResultAt, selfResultAt, resultsAfter, worldQuery, selfQuery, silentWorldScenario,
    featureOn, worldSilent, robotAtDistance, CollisionResult.init, DBL_MAX]
  norm_num

/-! ## Index safety and termination of the step loop -/

theorem runSteps_eq_stepLoop (self : ObstacleAvoidanceFeature) (trajectory : StompTrajectory)
    (start_timestep num_time_steps : Int) :
    runSteps self trajectory start_timestep num_time_steps =
      stepLoop self trajectory (makeRequest self trajectory) (start_timestep + num_time_steps)
        num_time_steps.toNat start_timestep (loopEntryState trajectory) := rfl

theorem stepLoop_short_fuel (self : ObstacleAvoidanceFeature) (trajectory : StompTrajectory)
    (start_timestep num_time_steps : Int)
    (h0 : 0 ≤ start_timestep)
    (h1 : start_timestep + num_time_steps ≤ trajectory.num_time_steps_)
    (h2 : trajectory.num_time_steps_ ≤ trajectory.kinematic_states_.length) :
    ∀ (fuel k : Nat) (s : LoopState), LoopInv self trajectory start_timestep k s →
      k + fuel < num_time_steps.toNat →
      stepLoop self trajectory (makeRequest self trajectory)
        (start_timestep + num_time_steps) fuel (start_timestep + k) s =
          .error .fuelExhausted := by
  intro fuel
  induction fuel with
  | zero =>
    intro k s _ hk
    have hlt : start_timestep + (k : Int) < start_timestep + num_time_steps := by omega
    simp only [stepLoop, if_pos hlt]
  | succ fuel ih =>
    intro k s hinv hk
    have hlt : start_timestep + (k : Int) < start_timestep + num_time_steps := by omega
    obtain ⟨s1, hbody, hinv1⟩ :=
      loopInv_step self trajectory start_timestep k s hinv h0 (by omega) h2
    have hrec := ih (k + 1) s1 hinv1 (by omega)
    have hcast : start_timestep + ((k + 1 : Nat) : Int) = start_timestep + (k : Int) + 1 := by
      push_cast
      ring
    rw [hcast] at hrec
    simp only [stepLoop, if_pos hlt, hbody]
    exact hrec

theorem stepLoop_enough_fuel (self : ObstacleAvoidanceFeature) (trajectory : StompTrajectory)
    (start_timestep num_time_steps : Int)
    (h0 : 0 ≤ start_timestep) (hcount : 0 ≤ num_time_steps)
    (h1 : start_timestep + num_time_steps ≤ trajectory.num_time_steps_)
    (h2 : trajectory.num_time_steps_ ≤ trajectory.kinematic_states_.length) :
    ∀ (fuel k : Nat) (s : LoopState), LoopInv self trajectory start_timestep k s →
      k ≤ num_time_steps.toNat → num_time_steps.toNat ≤ k + fuel →
      stepLoop self trajectory (makeRequest self trajectory)
        (start_timestep + num_time_steps) fuel (start_timestep + k) s =
      stepLoop self trajectory (makeRequest self trajectory)
        (start_timestep + num_time_steps) (num_time_steps.toNat - k) (start_timestep + k) s := by
  intro fuel
  induction fuel with
  | zero =>
    intro k s _ hk1 hk2
    have : num_time_steps.toNat - k = 0 := by omega
    rw [this]
  | succ fuel ih =>
    intro k s hinv hk1 hk2
    by_cases hk : k = num_time_steps.toNat
    · have hnot : ¬ (start_timestep + (k : Int) < start_timestep + num_time_steps) := by omega
      have hz : num_time_steps.toNat - k = 0 := by omega
      rw [hz]
      simp only [stepLoop, if_neg hnot]
    · have hlt : start_timestep + (k : Int) < start_timestep + num_time_steps := by omega
      obtain ⟨s1, hbody, hinv1⟩ :=
        loopInv_step self trajectory start_timestep k s hinv h0 (by omega) h2
      have hrec := ih (k + 1) s1 hinv1 (by omega) (by omega)
      have hcast : start_timestep + ((k + 1 : Nat) : Int) = start_timestep + (k : Int) + 1 := by
        push_cast
        ring
      rw [hcast] at hrec
      have hsucc : num_time_steps.toNat - k = (num_time_steps.toNat - (k + 1)) + 1 := by omega
      rw [hsucc]
      simp only [stepLoop, if_pos hlt, hbody]
      exact hrec

/-- C19 (index safety and termination): when `0 <= start`, `0 <= count`,
`start + count <= num_time_steps_` and the trajectory holds at least `num_time_steps_` robot
states, the call returns without any access outside the state list, the validity vector or
the feature matrix: every step index of the range is inside the three of them. The step loop
runs exactly `count` iterations: it completes, with the same state, with any allowance of at
least `count` iterations, and it is still running when an allowance of fewer than `count`
iterations is used up. -/
theorem index_safety_and_termination (self : ObstacleAvoidanceFeature)
    (trajectory : StompTrajectory) (feature_values : MatrixXd) (compute_gradients : Bool)
    (gradients : List MatrixXd) (validities : List Int)
    (thread_id start_timestep num_time_steps : Int)
    (h0 : 0 ≤ start_timestep) (hcount : 0 ≤ num_time_steps)
    (h1 : start_timestep + num_time_steps ≤ trajectory.num_time_steps_)
    (h2 : trajectory.num_time_steps_ ≤ trajectory.kinematic_states_.length) :
    ∃ s out,
      runSteps self trajectory start_timestep num_time_steps = .ok s ∧
      computeValuesAndGradients self trajectory feature_values compute_gradients gradients
        validities thread_id start_timestep num_time_steps = .ok out ∧
      (∀ t : Int, start_timestep ≤ t → t < start_timestep + num_time_steps →
        0 ≤ t ∧ t.toNat < trajectory.kinematic_states_.length ∧
        t.toNat < out.validities.length ∧ t.toNat < out.feature_values.rows ∧
        0 < out.feature_values.cols) ∧
      (∀ fuel : Nat, num_time_steps.toNat ≤ fuel →
        stepLoop self trajectory (makeRequest self trajectory)
          (start_timestep + num_time_steps) fuel start_timestep (loopEntryState trajectory) =
            .ok s) ∧
      (∀ fuel : Nat, fuel < num_time_steps.toNat →
        stepLoop self trajectory (makeRequest self trajectory)
          (start_timestep + num_time_steps) fuel start_timestep (loopEntryState trajectory) =
            .error .fuelExhausted) := by
  obtain ⟨s, hs, hinv⟩ := runSteps_ok self trajectory start_timestep num_time_steps h0 h1 h2
  have hstart : start_timestep + ((0 : Nat) : Int) = start_timestep := by simp
  refine ⟨s, _, hs, computeValuesAndGradients_ok self trajectory feature_values
    compute_gradients gradients validities thread_id start_timestep num_time_steps s hs,
    ?_, ?_, ?_⟩
  · intro t ht1 ht2
    refine ⟨by omega, by omega, ?_, ?_, ?_⟩
    · show t.toNat < s.validities.length
      rw [hinv.len]; omega
    · show t.toNat < s.feature_values.rows
      rw [hinv.rows]; omega
    · show 0 < s.feature_values.cols
      rw [hinv.cols]; decide
  · intro fuel hfuel
    have h := stepLoop_enough_fuel self trajectory start_timestep num_time_steps h0 hcount h1
      h2 fuel 0 (loopEntryState trajectory) (loopInv_init self trajectory start_timestep)
      (by omega) (by omega)
    rw [hstart, Nat.sub_zero, ← runSteps_eq_stepLoop, hs] at h
    exact h
  · intro fuel hfuel
    have h := stepLoop_short_fuel self trajectory start_timestep num_time_steps h0 h1 h2
      fuel 0 (loopEntryState trajectory) (loopInv_init self trajectory start_timestep)
      (by omega)
    rw [hstart] at h
    exact h

/-- C19, at a concrete input: steps 1 and 2 of a three-step trajectory; the loop completes
with an allowance of two iterations and not with an allowance of one. -/
theorem index_safety_and_termination_witness :
    ∃ s out,
      runSteps collisionScenario threeStepTrajectory 1 2 = .ok s ∧
      computeValuesAndGradients collisionScenario threeStepTrajectory (MatrixXd.Zero 0 0) false
        [] [] 0 1 2 = .ok out ∧
      stepLoop collisionScenario threeStepTrajectory
        (makeRequest collisionScenario threeStepTrajectory) (1 + 2) 2 1
        (loopEntryState threeStepTrajectory) = .ok s ∧
      stepLoop collisionScenario threeStepTrajectory
        (makeRequest collisionScenario threeStepTrajectory) (1 + 2) 1 1
        (loopEntryState threeStepTrajectory) = .error .fuelExhausted := by
  obtain ⟨s, out, hs, ho, _, henough, hshort⟩ :=
    index_safety_and_termination collisionScenario threeStepTrajectory (MatrixXd.Zero 0 0)
      false [] [] 0 1 2 (by decide) (by decide) (by decide) (by decide)
  exact ⟨s, out, hs, ho, henough 2 (by decide), hshort 1 (by decide)⟩


/-! ## Extending the requested range -/

/-- C18 as stated fails: a world check that does not clear the result object, on the
three-step trajectory whose first configuration collides. Step 1 belongs to the range
`[1, 2)` and to the wider range `[0, 2)`. Evaluated on `[1, 2)` it has the feature value `0`
and the validity `1`; evaluated on `[0, 2)`, where the result object still carries the
collision of step 0, it has the feature value `1` and the validity `0`. -/
theorem range_extension_not_monotone :
    ∃ out out',
      computeValuesAndGradients stickyWorldScenario threeStepTrajectory (MatrixXd.Zero 0 0)
        false [] [] 0 1 1 = .ok out ∧
      computeValuesAndGradients stickyWorldScenario threeStepTrajectory (MatrixXd.Zero 0 0)
        false [] [] 0 0 2 = .ok out' ∧
      out.feature_values.coeff 1 0 = 0 ∧ out'.feature_values.coeff 1 0 = 1 ∧
      ¬ (out'.feature_values.coeff 1 0 ≤ out.feature_values.coeff 1 0) ∧
      out.validities[1]? = some 1 ∧ out'.validities[1]? = some 0 ∧
      out'.validities[1]? ≠ out.validities[1]? := by
  have hs : ∃ s, runSteps stickyWorldScenario threeStepTrajectory 1 1 = .ok s ∧
      s.max_depth = 0 ∧ s.feature_values.coeff 1 0 = 0 ∧ s.validities = [1, 1, 1] := by
    simp [runSteps, stepLoop, stepBody, vectorGet, threeStepTrajectory, evalResults, evalResult,
      worldQuery, selfQuery, stickyWorldScenario, featureOn, worldSticky, robotAtDistance,
      makeRequest, CollisionResult.init, MatrixXd.addAt, MatrixXd.Zero, getNumValues,
      NUM_FEATURE_VALUES, vectorSet, scanContactMap, scanContactArray]
    norm_num
  have hs' : ∃ s, runSteps stickyWorldScenario threeStepTrajectory 0 2 = .ok s ∧
      s.max_depth = 1 / 50 ∧ s.feature_values.coeff 1 0 = 3 / 100 ∧
      s.validities = [0, 0, 1] := by
    simp [runSteps, stepLoop, stepBody, vectorGet, threeStepTrajectory, evalResults, evalResult,
      worldQuery, selfQuery, stickyWorldScenario, featureOn, worldSticky, robotAtDistance,
      makeRequest, CollisionResult.init, MatrixXd.addAt, MatrixXd.Zero, getNumValues,
      NUM_FEATURE_VALUES, vectorSet, scanContactMap, scanContactArray]
    norm_num [abs_of_pos]
  obtain ⟨s, hrun, hmd, hfv, hval⟩ := hs
  obtain ⟨s', hrun', hmd', hfv', hval'⟩ := hs'
  have hv : s.feature_values.coeff 1 0 * (1 / (s.max_depth + 1 / 100)) = 0 := by
    rw [hfv, zero_mul]
  have hv' : s'.feature_values.coeff 1 0 * (1 / (s'.max_depth + 1 / 100)) = 1 := by
    rw [hfv', hmd']
    norm_num
  refine ⟨_, _,
    computeValuesAndGradients_ok stickyWorldScenario threeStepTrajectory (MatrixXd.Zero 0 0)
      false [] [] 0 1 1 s hrun,
    computeValuesAndGradients_ok stickyWorldScenario threeStepTrajectory (MatrixXd.Zero 0 0)
      false [] [] 0 0 2 s' hrun',
    hv, hv', ?_, ?_, ?_, ?_⟩
  · show ¬ (s'.feature_values.coeff 1 0 * (1 / (s'.max_depth + 1 / 100)) ≤
      s.feature_values.coeff 1 0 * (1 / (s.max_depth + 1 / 100)))
    rw [hv, hv']
    norm_num
  · show s.validities[1]? = some 1
    rw [hval]; rfl
  · show s'.validities[1]? = some 0
    rw [hval']; rfl
  · show s'.validities[1]? ≠ s.validities[1]?
    rw [hval, hval']
    decide


/-- C18 as amended: for every clearance above `0` and every two requested ranges `R` inside
`R'` inside the trajectory such that, at every step of `R`, the world result and the self
result read by the evaluation of `R'` are those read by the evaluation of `R` (as they are
when both ranges start at the same step, or when the engine writes the whole result at every
query), both calls return and, for every step `t` of `R`, the feature value of `t` returned
for `R'` is at most the one returned for `R`, and the validity flag of `t` is the same. -/
theorem range_extension_monotone (self : ObstacleAvoidanceFeature)
    (trajectory : StompTrajectory) (feature_values : MatrixXd) (compute_gradients : Bool)
    (gradients : List MatrixXd) (validities : List Int)
    (thread_id start_timestep num_time_steps start_timestep' num_time_steps' : Int)
    (h0 : 0 ≤ start_timestep')
    (h1 : start_timestep' + num_time_steps' ≤ trajectory.num_time_steps_)
    (h2 : trajectory.num_time_steps_ ≤ trajectory.kinematic_states_.length)
    (hsub1 : start_timestep' ≤ start_timestep)
    (hsub2 : start_timestep + num_time_steps ≤ start_timestep' + num_time_steps')
    (hpos : 0 < self.clearance_)
    (hsame : ∀ t : Int, start_timestep ≤ t → t < start_timestep + num_time_steps →
      worldResultAt self trajectory start_timestep' t =
        worldResultAt self trajectory start_timestep t ∧
      selfResultAt self trajectory start_timestep' t =
        selfResultAt self trajectory start_timestep t) :
    ∃ out out',
      computeValuesAndGradients self trajectory feature_values compute_gradients gradients
        validities thread_id start_timestep num_time_steps = .ok out ∧
      computeValuesAndGradients self trajectory feature_values compute_gradients gradients
        validities thread_id start_timestep' num_time_steps' = .ok out' ∧
      ∀ t : Int, start_timestep ≤ t → t < start_timestep + num_time_steps →
        out'.feature_values.coeff t.toNat 0 ≤ out.feature_values.coeff t.toNat 0 ∧
        out'.validities[t.toNat]? = out.validities[t.toNat]? := by
  obtain ⟨s, hs, hinv⟩ := runSteps_ok self trajectory start_timestep num_time_steps
    (by omega) (by omega) h2
  obtain ⟨s', hs', hinv'⟩ := runSteps_ok self trajectory start_timestep' num_time_steps'
    h0 h1 h2
  have hkey : ∀ x : ℚ, x ∈ depthsScanned self trajectory start_timestep num_time_steps.toNat →
      x ∈ depthsScanned self trajectory start_timestep' num_time_steps'.toNat := by
    intro x hx
    rw [mem_depthsScanned] at hx ⊢
    obtain ⟨j, hj, hmem⟩ := hx
    obtain ⟨hw, hr⟩ := hsame (start_timestep + j) (by omega) (by omega)
    unfold worldResultAt at hw
    unfold selfResultAt at hr
    have hjt : (start_timestep + (j : Int) - start_timestep).toNat + 1 = j + 1 := by omega
    rw [hjt] at hw hr
    refine ⟨(start_timestep + (j : Int) - start_timestep').toNat, by omega, ?_⟩
    rw [hw, hr]
    exact hmem
  have hmd : s.max_depth ≤ s'.max_depth := by
    rw [hinv.depth, hinv'.depth]
    rcases runningMax_eq_or_mem 0
        (depthsScanned self trajectory start_timestep num_time_steps.toNat) with h | h
    · rw [h]; exact le_runningMax 0 _
    · exact mem_le_runningMax 0 _ _ (hkey _ h)
  have hd : 0 < s.max_depth + self.clearance_ := by
    rw [hinv.depth]
    exact add_pos_of_nonneg_of_pos (le_runningMax 0 _) hpos
  refine ⟨_, _,
    computeValuesAndGradients_ok self trajectory feature_values compute_gradients gradients
      validities thread_id start_timestep num_time_steps s hs,
    computeValuesAndGradients_ok self trajectory feature_values compute_gradients gradients
      validities thread_id start_timestep' num_time_steps' s' hs', ?_⟩
  intro t ht1 ht2
  obtain ⟨hw, hr⟩ := hsame t ht1 ht2
  have hin : start_timestep.toNat ≤ t.toNat ∧
      t.toNat < start_timestep.toNat + num_time_steps.toNat ∧ (0 : Nat) = 0 := by omega
  have hin' : start_timestep'.toNat ≤ t.toNat ∧
      t.toNat < start_timestep'.toNat + num_time_steps'.toNat ∧ (0 : Nat) = 0 := by omega
  have hidx : t.toNat - start_timestep.toNat + 1 = (t - start_timestep).toNat + 1 := by omega
  have hidx' : t.toNat - start_timestep'.toNat + 1 = (t - start_timestep').toNat + 1 := by
    omega
  have hc := hinv.coeff t.toNat 0
  rw [if_pos hin, hidx] at hc
  have hc' := hinv'.coeff t.toNat 0
  rw [if_pos hin', hidx'] at hc'
  have hraw : s.feature_values.coeff t.toNat 0 =
      potentialOf self.clearance_ (worldResultAt self trajectory start_timestep t) +
        potentialOf self.clearance_ (selfResultAt self trajectory start_timestep t) := hc
  have hraw' : s'.feature_values.coeff t.toNat 0 =
      potentialOf self.clearance_ (worldResultAt self trajectory start_timestep' t) +
        potentialOf self.clearance_ (selfResultAt self trajectory start_timestep' t) := hc'
  rw [hw, hr, ← hraw] at hraw'
  have hv := hinv.valid t.toNat (by omega)
  rw [hidx] at hv
  have hv' := hinv'.valid t.toNat (by omega)
  rw [hidx'] at hv'
  have hflag : s.validities[t.toNat]? = some
      (if (worldResultAt self trajectory start_timestep t).collision = true ∨
          (selfResultAt self trajectory start_timestep t).collision = true
        then 0 else 1) := by
    rw [hv]
    unfold worldResultAt selfResultAt
    by_cases hcol : (resultsAfter self trajectory start_timestep
          ((t - start_timestep).toNat + 1)).1.collision = true ∨
        (resultsAfter self trajectory start_timestep
          ((t - start_timestep).toNat + 1)).2.collision = true
    · rw [if_pos ⟨hin.1, hin.2.1, hcol⟩, if_pos hcol]
    · rw [if_neg (fun h => hcol h.2.2), if_neg hcol]
  have hflag' : s'.validities[t.toNat]? = some
      (if (worldResultAt self trajectory start_timestep' t).collision = true ∨
          (selfResultAt self trajectory start_timestep' t).collision = true
        then 0 else 1) := by
    rw [hv']
    unfold worldResultAt selfResultAt
    by_cases hcol : (resultsAfter self trajectory start_timestep'
          ((t - start_timestep').toNat + 1)).1.collision = true ∨
        (resultsAfter self trajectory start_timestep'
          ((t - start_timestep').toNat + 1)).2.collision = true
    · rw [if_pos ⟨hin'.1, hin'.2.1, hcol⟩, if_pos hcol]
    · rw [if_neg (fun h => hcol h.2.2), if_neg hcol]
  constructor
  · show s'.feature_values.coeff t.toNat 0 * (1 / (s'.max_depth + self.clearance_)) ≤
      s.feature_values.coeff t.toNat 0 * (1 / (s.max_depth + self.clearance_))
    rw [hraw', mul_one_div, mul_one_div]
    have hnn : 0 ≤ s.feature_values.coeff t.toNat 0 := by
      rw [hraw]
      exact add_nonneg (potentialOf_nonneg _ hpos _) (potentialOf_nonneg _ hpos _)
    exact div_le_div_of_nonneg_left hnn hd (by linarith)
  · show s'.validities[t.toNat]? = s.validities[t.toNat]?
    rw [hflag, hflag', hw, hr]

/-- C18 as amended, at a concrete input: step 1 of a three-step trajectory evaluated on
`[1, 2)` and on `[0, 3)`, with a world check that writes the whole collision at every query
(depth 0.02 at each step). -/
theorem range_extension_monotone_witness :
    ∃ out out',
      computeValuesAndGradients collisionScenario threeStepTrajectory (MatrixXd.Zero 0 0)
        false [] [] 0 1 1 = .ok out ∧
      computeValuesAndGradients collisionScenario threeStepTrajectory (MatrixXd.Zero 0 0)
        false [] [] 0 0 3 = .ok out' ∧
      ∀ t : Int, (1 : Int) ≤ t → t < 1 + 1 →
        out'.feature_values.coeff t.toNat 0 ≤ out.feature_values.coeff t.toNat 0 ∧
        out'.validities[t.toNat]? = out.validities[t.toNat]? :=
  range_extension_monotone collisionScenario threeStepTrajectory (MatrixXd.Zero 0 0) false []
    [] 0 1 1 0 3 (by decide) (by decide) (by decide) (by decide) (by decide)
    (by norm_num [collisionScenario, featureOn])
    (by
      intro t ht1 ht2
      have ht : t = 1 := by omega
      subst ht
      simp [worldResultAt, selfResultAt, resultsAfter, worldQuery, selfQuery, collisionScenario,
        featureOn, worldInCollision, robotAtDistance, CollisionResult.init])


/-! ## Finite entries -/

theorem outputs_finite_of_clearance_pos (self : ObstacleAvoidanceFeature)
    (trajectory : StompTrajectory) (feature_values : MatrixXd) (compute_gradients : Bool)
    (gradients : List MatrixXd) (validities : List Int)
    (thread_id start_timestep num_time_steps : Int) (out : Outputs)
    (hpos : 0 < self.clearance_)
    (hout : computeValuesAndGradients self trajectory feature_values compute_gradients
      gradients validities thread_id start_timestep num_time_steps = .ok out) :
    ∀ i j : Nat, out.non_finite i j = none := by
  intro i j
  cases hs : runSteps self trajectory start_timestep num_time_steps with
  | error e =>
    simp [computeValuesAndGradients, hs] at hout
  | ok s =>
    have hnn : 0 ≤ s.max_depth := stepLoop_max_depth_le self trajectory _ _ _ _ _ s hs
    have hd : s.max_depth + self.clearance_ ≠ 0 :=
      ne_of_gt (add_pos_of_nonneg_of_pos hnn hpos)
    rw [computeValuesAndGradients_ok self trajectory feature_values compute_gradients gradients
      validities thread_id start_timestep num_time_steps s hs] at hout
    simp only [Except.ok.injEq] at hout
    subst hout
    exact scaledNonFinite_of_ne_zero _ _ hd

end stomp_moveit_interface
